import Mathlib

/-!
Shallow embedding of the caffeine8 inhibitor lifecycle controller
(source file caffeine8.cpp, namespace caffeine8).  Process state is
threaded explicitly; the DBus and file-system environment is modelled by
explicit outcome values consumed by each operation.  Lease operations and
completed transitions are additionally recorded in a ghost event list so
that theorems can speak about which external actions were performed and
in which order.
-/

namespace Caffeine8

/-- Mirrors the C++ struct InhibitorHandles: the two DBus connection
pointers are modelled by a Bool recording whether the pointer is non-null,
the screen-saver cookie is the uint32 lease id (0 when none), and the two
login1 inhibitor file descriptors are -1 when not held. -/
structure InhibitorHandles where
  sessionConnection : Bool
  systemConnection : Bool
  screenSaverCookie : Nat
  idleFd : Int
  sleepFd : Int
  deriving DecidableEq, Repr

/-- Content of /tmp/caffeine8.status as written by updateStatusFile: the
four fields serialized as one key=value line each. -/
structure StatusFileContent where
  pid : Nat
  active : Bool
  debug : Bool
  message : String
  deriving DecidableEq, Repr

/-- Ghost events recording the externally visible lease operations and the
completed transitions of the controller.  ssInhibitAttempt and
l1InhibitAttempt mark entry into the corresponding acquire function,
ssUnInhibitCall marks a ScreenSaver.UnInhibit call being sent, fdClose a
close(fd) on a login1 inhibitor descriptor, acquisitionDone the end of
acquireInhibitors with the three per-category results, and cleanupDone the
end of cleanupInhibitors. -/
inductive Event where
  | ssInhibitAttempt
  | l1InhibitAttempt (what : String)
  | ssUnInhibitCall (cookie : Nat)
  | fdClose (fd : Int)
  | acquisitionDone (screen idle sleep : Bool)
  | cleanupDone
  deriving DecidableEq, Repr

/-- The global mutable state of the controller process: the handle block,
the debugLoggingEnabled and inhibitorsActive flags, the lastQbusError
message, the current content of the status file (none if never written),
the diagnostic log lines printed so far, the ghost event list, and the
process id returned by getpid. -/
structure ProgState where
  handles : InhibitorHandles
  debugLoggingEnabled : Bool
  inhibitorsActive : Bool
  lastQbusError : String
  statusFile : Option StatusFileContent
  debugLog : List String
  events : List Event
  pid : Nat
  deriving DecidableEq, Repr

/-- Path of the status file shared with the UI. -/
def statusFilePath : String := "/tmp/caffeine8.status"

/-- Append a ghost event. -/
def emit (ev : Event) (s : ProgState) : ProgState :=
  { s with events := s.events ++ [ev] }

/-- Mirrors logDebug: prints a [debug]-prefixed line iff debug logging is
enabled; no other state is touched. -/
def logDebug (message : String) (s : ProgState) : ProgState :=
  if s.debugLoggingEnabled then
    { s with debugLog := s.debugLog ++ ["[debug] " ++ message] }
  else s

/-- Mirrors sanitizeStatusMessage: std::replace of every linefeed by a
space, then std::replace of every carriage return by a space. -/
def sanitizeStatusMessage (message : String) : String :=
  let pass1 := (message.data.map fun c => if c = '\n' then ' ' else c)
  String.mk (pass1.map fun c => if c = '\r' then ' ' else c)

/-- Mirrors updateStatusFile: if the status file cannot be opened the
failure is only debug-logged; otherwise the file is truncated and the four
pid/active/debug/message fields are written from the current state. -/
def updateStatusFile (openOk : Bool) (s : ProgState) : ProgState :=
  if openOk = false then
    logDebug ("Unable to open status file for writing: " ++ statusFilePath) s
  else
    { s with statusFile := some (StatusFileContent.mk s.pid s.inhibitorsActive
        s.debugLoggingEnabled (sanitizeStatusMessage s.lastQbusError)) }

/-- Mirrors setStatusMessage: overwrite lastQbusError, debug-log the
message, republish the status file. -/
def setStatusMessage (message : String) (writeOk : Bool) (s : ProgState) : ProgState :=
  updateStatusFile writeOk (logDebug message { s with lastQbusError := message })

/-- Serialization of the status file as the list of lines produced by the
stream writes in updateStatusFile. -/
def statusFileLines (f : StatusFileContent) : List String :=
  ["pid=" ++ toString f.pid,
   "active=" ++ (if f.active then "1" else "0"),
   "debug=" ++ (if f.debug then "1" else "0"),
   "message=" ++ f.message]

/-- Key/value split of one status-file line, mirroring the parsing in the
readStatus lambda of showUI: the key is the text before the first equals
sign, the value everything after it; a line without an equals sign is
skipped. -/
def parseStatusLine (line : String) : Option (String × String) :=
  match line.data.findIdx? (fun c => c = '=') with
  | some i => some (String.mk (line.data.take i), String.mk (line.data.drop (i + 1)))
  | none => none

/-- One step of the readStatus loop of showUI restricted to the active
field: a line with key active sets the flag to whether the value is 1,
true or TRUE; other lines leave it unchanged. -/
def readActiveStep (acc : Bool) (line : String) : Bool :=
  match parseStatusLine line with
  | some kv => if kv.1 = "active" then (kv.2 = "1" || kv.2 = "true" || kv.2 = "TRUE") else acc
  | none => acc

/-- The active flag recovered by the showUI reader from a status file,
starting from the default false. -/
def readActiveFromLines (lines : List String) : Bool :=
  lines.foldl readActiveStep false

/-- Outcome of dbus_bus_get inside getConnection: the DBus error may be
set with a message, the call may yield a null connection without setting
the error, or a connection is obtained. -/
inductive ConnResult where
  | errSet (msg : String)
  | null
  | ok
  deriving DecidableEq, Repr

/-- Outcome of dbus_connection_send_with_reply_and_block: error set with a
message, null reply without error, or a reply obtained. -/
inductive CallResult where
  | errSet (msg : String)
  | nullReply
  | ok
  deriving DecidableEq, Repr

/-- Outcome of dbus_message_get_args on the ScreenSaver.Inhibit reply:
parse error with a message, or the uint32 cookie. -/
inductive SSParse where
  | err (msg : String)
  | ok (cookie : Nat)
  deriving DecidableEq, Repr

/-- Outcome of iterating the login1.Inhibit reply: no arguments, first
argument not a UNIX FD, or the descriptor value (a descriptor delivered
through a type-checked DBUS UNIX_FD argument is a valid open descriptor,
hence nonnegative). -/
inductive L1Iter where
  | noArgs
  | notFd
  | fd (value : Nat)
  deriving DecidableEq, Repr

/-- Environment consumed by one acquireScreenSaverInhibitor attempt.  The
conn outcome is only used when no session connection is cached; msgOk is
whether dbus_message_new_method_call succeeds; writeOk is whether the
status file can be opened for the (at most one) status message the attempt
may publish. -/
structure SSEnv where
  conn : ConnResult
  msgOk : Bool
  call : CallResult
  parse : SSParse
  writeOk : Bool
  deriving DecidableEq, Repr

/-- Environment consumed by one acquireLogin1Inhibitor attempt. -/
structure L1Env where
  conn : ConnResult
  msgOk : Bool
  call : CallResult
  iter : L1Iter
  writeOk : Bool
  deriving DecidableEq, Repr

/-- Mirrors getConnection: on a set DBus error or a null connection a
status message is published and no connection is obtained. -/
def getConnection (label : String) (r : ConnResult) (writeOk : Bool)
    (s : ProgState) : ProgState × Bool :=
  match r with
  | ConnResult.errSet m =>
      (setStatusMessage ("Failed to connect to " ++ label ++ " bus: " ++ m) writeOk s, false)
  | ConnResult.null =>
      (setStatusMessage ("Failed to obtain " ++ label ++ " DBus connection (nullptr).") writeOk s, false)
  | ConnResult.ok => (s, true)

/-- The initial block of acquireScreenSaverInhibitor: ensure a session
connection is cached, opening one via getConnection when absent. -/
def ssConnStep (e : SSEnv) (s : ProgState) : ProgState × Bool :=
  if s.handles.sessionConnection then (s, true)
  else
    let r := getConnection "session" e.conn e.writeOk s
    if r.2 then
      ({ r.1 with handles := { r.1.handles with sessionConnection := true } }, true)
    else (r.1, false)

/-- Mirrors acquireScreenSaverInhibitor: connect to the session bus if
needed, build and send the ScreenSaver.Inhibit call, parse the uint32
cookie out of the reply and store it; every failure publishes a status
message and returns false without touching the cookie. -/
def acquireScreenSaverInhibitor (e : SSEnv) (s : ProgState) : ProgState × Bool :=
  let c := ssConnStep e (emit Event.ssInhibitAttempt s)
  if c.2 = false then (c.1, false)
  else if e.msgOk = false then
    (setStatusMessage "Failed to create DBus message for ScreenSaver.Inhibit." e.writeOk c.1, false)
  else
    match e.call with
    | CallResult.errSet m =>
        (setStatusMessage ("ScreenSaver.Inhibit failed: " ++ m) e.writeOk c.1, false)
    | CallResult.nullReply =>
        (setStatusMessage "ScreenSaver.Inhibit returned null reply." e.writeOk c.1, false)
    | CallResult.ok =>
        match e.parse with
        | SSParse.err m =>
            (setStatusMessage ("Unable to parse ScreenSaver.Inhibit reply: " ++ m) e.writeOk c.1, false)
        | SSParse.ok cookie =>
            (logDebug ("Screen saver inhibitor acquired. Cookie=" ++ toString cookie)
              { c.1 with handles := { c.1.handles with screenSaverCookie := cookie } }, true)

/-- Selector for the int& fdRef argument of acquireLogin1Inhibitor and
releaseLogin1Fd: the idle or the sleep descriptor field. -/
inductive FdField where
  | idle
  | sleep
  deriving DecidableEq, Repr

/-- Read the selected descriptor field. -/
def InhibitorHandles.getFd (h : InhibitorHandles) : FdField → Int
  | FdField.idle => h.idleFd
  | FdField.sleep => h.sleepFd

/-- Write the selected descriptor field. -/
def InhibitorHandles.setFd (h : InhibitorHandles) : FdField → Int → InhibitorHandles
  | FdField.idle, v => { h with idleFd := v }
  | FdField.sleep, v => { h with sleepFd := v }

/-- The descriptor carried by a successful login1 reply iteration (0 for
the failure outcomes, which never use it). -/
def l1EnvFd : L1Iter → Nat
  | L1Iter.fd v => v
  | _ => 0

/-- The initial block of acquireLogin1Inhibitor: ensure a system
connection is cached, opening one via getConnection when absent. -/
def l1ConnStep (e : L1Env) (s : ProgState) : ProgState × Bool :=
  if s.handles.systemConnection then (s, true)
  else
    let r := getConnection "system" e.conn e.writeOk s
    if r.2 then
      ({ r.1 with handles := { r.1.handles with systemConnection := true } }, true)
    else (r.1, false)

/-- Mirrors acquireLogin1Inhibitor(what, fdRef): connect to the system bus
if needed, build and send the login1.Inhibit call for the given category,
and store the UNIX FD from the reply into the selected field; every
failure publishes a status message and returns false without touching the
field. -/
def acquireLogin1Inhibitor (what : String) (field : FdField) (e : L1Env)
    (s : ProgState) : ProgState × Bool :=
  let c := l1ConnStep e (emit (Event.l1InhibitAttempt what) s)
  if c.2 = false then (c.1, false)
  else if e.msgOk = false then
    (setStatusMessage ("Failed to create DBus message for login1.Inhibit " ++ what ++ ".") e.writeOk c.1, false)
  else
    match e.call with
    | CallResult.errSet m =>
        (setStatusMessage ("login1.Inhibit(" ++ what ++ ") failed: " ++ m) e.writeOk c.1, false)
    | CallResult.nullReply =>
        (setStatusMessage ("login1.Inhibit(" ++ what ++ ") returned null reply.") e.writeOk c.1, false)
    | CallResult.ok =>
        match e.iter with
        | L1Iter.noArgs =>
            (setStatusMessage ("login1.Inhibit(" ++ what ++ ") reply has no arguments.") e.writeOk c.1, false)
        | L1Iter.notFd =>
            (setStatusMessage ("login1.Inhibit(" ++ what ++ ") reply is not a UNIX FD.") e.writeOk c.1, false)
        | L1Iter.fd v =>
            (logDebug ("systemd inhibitor for " ++ what ++ " acquired. FD=" ++ toString v)
              { c.1 with handles := c.1.handles.setFd field (Int.ofNat v) }, true)

/-- Environment consumed by releaseScreenSaverInhibitor: whether the
UnInhibit message can be constructed and the outcome of sending it. -/
structure RelSSEnv where
  msgOk : Bool
  call : CallResult
  deriving DecidableEq, Repr

/-- Mirrors releaseScreenSaverInhibitor: a no-op when no cookie is held or
no session connection exists; if the UnInhibit message cannot be built the
function returns early (leaving the cookie in place); otherwise the call
is sent best-effort, errors are only debug-logged, and the cookie is reset
to 0. -/
def releaseScreenSaverInhibitor (e : RelSSEnv) (s : ProgState) : ProgState :=
  if s.handles.screenSaverCookie = 0 ∨ s.handles.sessionConnection = false then s
  else if e.msgOk = false then
    logDebug "Failed to create DBus message for ScreenSaver.UnInhibit." s
  else
    let s1 := emit (Event.ssUnInhibitCall s.handles.screenSaverCookie) s
    let s2 :=
      match e.call with
      | CallResult.errSet m => logDebug ("ScreenSaver.UnInhibit failed: " ++ m) s1
      | _ => s1
    logDebug "Screen saver inhibitor released."
      { s2 with handles := { s2.handles with screenSaverCookie := 0 } }

/-- Mirrors releaseLogin1Fd(fdRef, what): close the descriptor and reset
it to -1 only when it is non-negative; otherwise do nothing. -/
def releaseLogin1Fd (field : FdField) (what : String) (s : ProgState) : ProgState :=
  if 0 ≤ s.handles.getFd field then
    let s1 := emit (Event.fdClose (s.handles.getFd field)) s
    let s2 := logDebug ("systemd inhibitor for " ++ what ++ " released.") s1
    { s2 with handles := s2.handles.setFd field (-1) }
  else s

/-- Environment consumed by cleanupInhibitors: the UnInhibit sub-call
environment and whether the final status-file write can open the file. -/
structure CleanupEnv where
  relSS : RelSSEnv
  writeOk : Bool
  deriving DecidableEq, Repr

/-- Mirrors cleanupInhibitors: release the screen-saver lease and both
login1 descriptors, clear inhibitorsActive, drop both cached connections,
and rewrite the status file. -/
def cleanupInhibitors (e : CleanupEnv) (s : ProgState) : ProgState :=
  let s1 := releaseScreenSaverInhibitor e.relSS s
  let s2 := releaseLogin1Fd FdField.idle "idle" s1
  let s3 := releaseLogin1Fd FdField.sleep "sleep" s2
  let s4 := { s3 with inhibitorsActive := false }
  let s5 :=
    if s4.handles.sessionConnection then
      { s4 with handles := { s4.handles with sessionConnection := false } }
    else s4
  let s6 :=
    if s5.handles.systemConnection then
      { s5 with handles := { s5.handles with systemConnection := false } }
    else s5
  updateStatusFile e.writeOk (emit Event.cleanupDone s6)

/-- Environment consumed by one acquireInhibitors attempt: one environment
per category attempt plus the write outcome for the final status
publication of the attempt. -/
structure AcqEnv where
  ss : SSEnv
  idle : L1Env
  sleep : L1Env
  writeOk : Bool
  deriving DecidableEq, Repr

/-- Mirrors acquireInhibitors: attempt the screen-saver, idle and sleep
acquisitions unconditionally in this order, set inhibitorsActive to the
conjunction of the three results, and publish either the fully-active
message or (on partial or total failure) just the status file. -/
def acquireInhibitors (e : AcqEnv) (s : ProgState) : ProgState × Bool :=
  let r1 := acquireScreenSaverInhibitor e.ss s
  let r2 := acquireLogin1Inhibitor "idle" FdField.idle e.idle r1.1
  let r3 := acquireLogin1Inhibitor "sleep" FdField.sleep e.sleep r2.1
  let s1 := { r3.1 with inhibitorsActive := r1.2 && r2.2 && r3.2 }
  let s2 := emit (Event.acquisitionDone r1.2 r2.2 r3.2) s1
  if r1.2 && r2.2 && r3.2 then
    (setStatusMessage "Inhibitors active (screen saver, idle, sleep)." e.writeOk s2, true)
  else
    (updateStatusFile e.writeOk s2, false)

/-- Environment consumed by one iteration of the polling loop: the two
request flags observed at the top of the iteration together with the
environments used by the operations the iteration may run. -/
structure IterEnv where
  acq : Bool
  rel : Bool
  acqEnv : AcqEnv
  acqNoopWriteOk : Bool
  cleanup : CleanupEnv
  relMsgWriteOk : Bool
  deriving DecidableEq, Repr

/-- The acquireRequested block of the loop body: on a pending acquire
request, run a full acquisition when inactive, or debug-log the no-op and
republish the status file when already active. -/
def acquirePhase (e : IterEnv) (s : ProgState) : ProgState :=
  if e.acq then
    if s.inhibitorsActive = false then
      let r := acquireInhibitors e.acqEnv s
      if r.2 = false then
        logDebug "Acquire request failed; inhibitors remain inactive." r.1
      else r.1
    else
      updateStatusFile e.acqNoopWriteOk
        (logDebug "Acquire request ignored; inhibitors already active." s)
  else s

/-- The releaseRequested block of the loop body: on a pending release
request, clean up and publish the released-by-user message when active, or
publish the already-inactive message when not. -/
def releasePhase (e : IterEnv) (s : ProgState) : ProgState :=
  if e.rel then
    if s.inhibitorsActive then
      setStatusMessage "Inhibitors released by user request." e.relMsgWriteOk
        (cleanupInhibitors e.cleanup s)
    else
      setStatusMessage "Inhibitors already inactive." e.relMsgWriteOk s
  else s

/-- One iteration of the while loop of runInhibitorLoop: the acquire block
followed by the release block. -/
def loopIter (e : IterEnv) (s : ProgState) : ProgState :=
  releasePhase e (acquirePhase e s)

/-- Environment consumed by the termination path of runInhibitorLoop. -/
structure TermEnv where
  cleanup : CleanupEnv
  msgWriteOk : Bool
  deriving DecidableEq, Repr

/-- The code after the while loop of runInhibitorLoop: record whether the
inhibitors were active, clean everything up, and publish the
process-exiting message only when they were. -/
def terminationStep (e : TermEnv) (s : ProgState) : ProgState :=
  let s1 := logDebug "Termination requested, cleaning up inhibitors." s
  let wereActive := s1.inhibitorsActive
  let s2 := cleanupInhibitors e.cleanup s1
  if wereActive then
    setStatusMessage "Inhibitors released (process exiting)." e.msgWriteOk s2
  else s2

/-- The code before the while loop of runInhibitorLoop: one initial full
acquisition, with a debug note when it fails. -/
def afterInitialAcquire (a : AcqEnv) (s : ProgState) : ProgState :=
  let r := acquireInhibitors a s
  if r.2 = false then logDebug "Initial inhibitor acquisition failed." r.1
  else r.1

/-- The controller state after the initial acquisition and a finite list
of loop iterations, before termination is observed. -/
def runUpTo (a : AcqEnv) (iters : List IterEnv) (s : ProgState) : ProgState :=
  iters.foldl (fun st e => loopIter e st) (afterInitialAcquire a s)

/-- Mirrors runInhibitorLoop on a finite schedule: initial acquisition,
the given loop iterations, then the termination path. -/
def runInhibitorLoop (a : AcqEnv) (iters : List IterEnv) (term : TermEnv)
    (s : ProgState) : ProgState :=
  terminationStep term (runUpTo a iters s)

/-- The global state at process start: default-initialized handles, debug
logging off, inhibitors inactive, lastQbusError NONE, no status file
written yet. -/
def initState (pid : Nat) : ProgState :=
  { handles := { sessionConnection := false, systemConnection := false,
                 screenSaverCookie := 0, idleFd := -1, sleepFd := -1 },
    debugLoggingEnabled := false,
    inhibitorsActive := false,
    lastQbusError := "NONE",
    statusFile := none,
    debugLog := [],
    events := [],
    pid := pid }

/-- Mirrors setDebugMode, called once by main before the loop starts. -/
def setDebugMode (enabled : Bool) (s : ProgState) : ProgState :=
  let s1 := { s with debugLoggingEnabled := enabled }
  if enabled then logDebug "Debug logging enabled." s1 else s1

/-- The controller state handed to runInhibitorLoop by main. -/
def processStart (pid : Nat) (debugRequested : Bool) : ProgState :=
  setDebugMode debugRequested (initState pid)

/-- Result of the screen-saver attempt inside acquireInhibitors. -/
def acqScreenResult (e : AcqEnv) (s : ProgState) : Bool :=
  (acquireScreenSaverInhibitor e.ss s).2

/-- Result of the idle attempt inside acquireInhibitors. -/
def acqIdleResult (e : AcqEnv) (s : ProgState) : Bool :=
  (acquireLogin1Inhibitor "idle" FdField.idle e.idle
    (acquireScreenSaverInhibitor e.ss s).1).2

/-- State after the three attempts inside acquireInhibitors, before the
aggregate flag is computed. -/
def afterAttempts (e : AcqEnv) (s : ProgState) : ProgState :=
  (acquireLogin1Inhibitor "sleep" FdField.sleep e.sleep
    (acquireLogin1Inhibitor "idle" FdField.idle e.idle
      (acquireScreenSaverInhibitor e.ss s).1).1).1

/-- Result of the sleep attempt inside acquireInhibitors. -/
def acqSleepResult (e : AcqEnv) (s : ProgState) : Bool :=
  (acquireLogin1Inhibitor "sleep" FdField.sleep e.sleep
    (acquireLogin1Inhibitor "idle" FdField.idle e.idle
      (acquireScreenSaverInhibitor e.ss s).1).1).2

/-- The aggregate result of one full acquisition attempt. -/
def acqResult (e : AcqEnv) (s : ProgState) : Bool :=
  acqScreenResult e s && (acqIdleResult e s && acqSleepResult e s)

/-- One step of the transition summary extracted from the ghost events:
an acquisitionDone event sets the flag to the conjunction of its three
results, a cleanupDone event clears it, every other event is neutral. -/
def transStep (acc : Bool) (ev : Event) : Bool :=
  match ev with
  | Event.acquisitionDone a b c => a && (b && c)
  | Event.cleanupDone => false
  | _ => acc

/-- The active flag dictated by the event history: true exactly when the
most recent completed transition is a fully successful acquisition. -/
def activeOfEvents (evs : List Event) : Bool :=
  evs.foldl transStep false

/-- The controller invariant of claim C1: the in-memory active flag agrees
with the transition history recorded in the events. -/
def ActiveInv (s : ProgState) : Prop :=
  s.inhibitorsActive = activeOfEvents s.events

/-- The published status file exists and the showUI reader recovers from
its serialized lines an active flag equal to the in-memory one. -/
def StatusAgrees (s : ProgState) : Prop :=
  ∃ f, s.statusFile = some f ∧
    readActiveFromLines (statusFileLines f) = s.inhibitorsActive

/-- Agreement of two status files up to the debug field. -/
def statusRel : Option StatusFileContent → Option StatusFileContent → Prop
  | none, none => True
  | some f, some g => f.pid = g.pid ∧ f.active = g.active ∧ f.message = g.message
  | _, _ => False

/-- The debug-independence relation of claim C9: two states agree on
everything the debug flag must not influence - handles, active flag, last
message, ghost events, pid, and the status file up to its debug field.
Only the debug flag itself, the diagnostic log, and the debug field of the
status file may differ. -/
def DebugIndep (s t : ProgState) : Prop :=
  s.handles = t.handles ∧ s.inhibitorsActive = t.inhibitorsActive ∧
  s.lastQbusError = t.lastQbusError ∧ s.events = t.events ∧ s.pid = t.pid ∧
  statusRel s.statusFile t.statusFile

/-- Whether a ghost event is a release action on a lease (an UnInhibit
call or a descriptor close). -/
def isReleaseEvent : Event → Bool
  | Event.ssUnInhibitCall _ => true
  | Event.fdClose _ => true
  | _ => false

/-- Sample screen-saver environment where every DBus interaction succeeds
and the reply carries cookie 7. -/
def ssEnvOk : SSEnv :=
  { conn := ConnResult.ok, msgOk := true, call := CallResult.ok,
    parse := SSParse.ok 7, writeOk := true }

/-- Sample login1 environment where every DBus interaction succeeds and
the reply carries the given descriptor. -/
def l1EnvOk (fd : Nat) : L1Env :=
  { conn := ConnResult.ok, msgOk := true, call := CallResult.ok,
    iter := L1Iter.fd fd, writeOk := true }

/-- Sample full-acquisition environment where all three categories
succeed. -/
def acqEnvOk : AcqEnv :=
  { ss := ssEnvOk, idle := l1EnvOk 5, sleep := l1EnvOk 6, writeOk := true }

/-- Sample full-acquisition environment where the screen-saver attempt
fails at the session bus connection while both login1 attempts succeed:
a partial acquisition. -/
def acqEnvPartial : AcqEnv :=
  { ss := { conn := ConnResult.errSet "busfail", msgOk := true, call := CallResult.ok,
            parse := SSParse.ok 7, writeOk := true },
    idle := l1EnvOk 5, sleep := l1EnvOk 6, writeOk := true }

/-- Sample cleanup environment where every interaction succeeds. -/
def cleanupEnvOk : CleanupEnv :=
  { relSS := { msgOk := true, call := CallResult.ok }, writeOk := true }

/-- A second all-success acquisition environment delivering different
handles. -/
def acqEnvOk2 : AcqEnv :=
  { ss := ssEnvOk, idle := l1EnvOk 9, sleep := l1EnvOk 10, writeOk := true }

/-- A loop iteration carrying only an acquire request, served by the
second all-success environment. -/
def iterAcqOk2 : IterEnv :=
  { acq := true, rel := false, acqEnv := acqEnvOk2, acqNoopWriteOk := true,
    cleanup := cleanupEnvOk, relMsgWriteOk := true }

/-- A loop iteration carrying only a release request. -/
def iterRelOnly : IterEnv :=
  { acq := false, rel := true, acqEnv := acqEnvOk, acqNoopWriteOk := true,
    cleanup := cleanupEnvOk, relMsgWriteOk := true }

/-- A termination environment where every interaction succeeds. -/
def termEnvOk : TermEnv :=
  { cleanup := cleanupEnvOk, msgWriteOk := true }

/-- The controller state after one fully successful acquisition from
process start: active with cookie 7 and descriptors 5 and 6. -/
def c3State : ProgState :=
  (acquireInhibitors acqEnvOk (processStart 42 false)).1

/-- A cleanup environment in which constructing the UnInhibit message
fails (the only release path that leaves a stale cookie behind). -/
def cleanupEnvMsgFail : CleanupEnv :=
  { relSS := { msgOk := false, call := CallResult.ok }, writeOk := true }

section PrimitiveLemmas

variable (m : String) (b : Bool) (ev : Event) (s : ProgState)

@[simp] lemma emit_handles : (emit ev s).handles = s.handles := rfl

@[simp] lemma emit_active : (emit ev s).inhibitorsActive = s.inhibitorsActive := rfl

@[simp] lemma emit_lastQbusError : (emit ev s).lastQbusError = s.lastQbusError := rfl

@[simp] lemma emit_statusFile : (emit ev s).statusFile = s.statusFile := rfl

@[simp] lemma emit_pid : (emit ev s).pid = s.pid := rfl

@[simp] lemma emit_debugEnabled : (emit ev s).debugLoggingEnabled = s.debugLoggingEnabled := rfl

@[simp] lemma emit_debugLog : (emit ev s).debugLog = s.debugLog := rfl

@[simp] lemma emit_events : (emit ev s).events = s.events ++ [ev] := rfl

@[simp] lemma logDebug_handles : (logDebug m s).handles = s.handles := by
  unfold logDebug; split <;> rfl

@[simp] lemma logDebug_active : (logDebug m s).inhibitorsActive = s.inhibitorsActive := by
  unfold logDebug; split <;> rfl

@[simp] lemma logDebug_lastQbusError : (logDebug m s).lastQbusError = s.lastQbusError := by
  unfold logDebug; split <;> rfl

@[simp] lemma logDebug_statusFile : (logDebug m s).statusFile = s.statusFile := by
  unfold logDebug; split <;> rfl

@[simp] lemma logDebug_pid : (logDebug m s).pid = s.pid := by
  unfold logDebug; split <;> rfl

@[simp] lemma logDebug_debugEnabled : (logDebug m s).debugLoggingEnabled = s.debugLoggingEnabled := by
  unfold logDebug; split <;> rfl

@[simp] lemma logDebug_events : (logDebug m s).events = s.events := by
  unfold logDebug; split <;> rfl

@[simp] lemma updateStatusFile_handles : (updateStatusFile b s).handles = s.handles := by
  unfold updateStatusFile; split <;> simp

@[simp] lemma updateStatusFile_active : (updateStatusFile b s).inhibitorsActive = s.inhibitorsActive := by
  unfold updateStatusFile; split <;> simp

@[simp] lemma updateStatusFile_lastQbusError : (updateStatusFile b s).lastQbusError = s.lastQbusError := by
  unfold updateStatusFile; split <;> simp

@[simp] lemma updateStatusFile_pid : (updateStatusFile b s).pid = s.pid := by
  unfold updateStatusFile; split <;> simp

@[simp] lemma updateStatusFile_debugEnabled : (updateStatusFile b s).debugLoggingEnabled = s.debugLoggingEnabled := by
  unfold updateStatusFile; split <;> simp

@[simp] lemma updateStatusFile_events : (updateStatusFile b s).events = s.events := by
  unfold updateStatusFile; split <;> simp

@[simp] lemma updateStatusFile_true_statusFile :
    (updateStatusFile true s).statusFile =
      some (StatusFileContent.mk s.pid s.inhibitorsActive s.debugLoggingEnabled
        (sanitizeStatusMessage s.lastQbusError)) := by
  unfold updateStatusFile; simp

@[simp] lemma updateStatusFile_false_statusFile :
    (updateStatusFile false s).statusFile = s.statusFile := by
  unfold updateStatusFile; simp

@[simp] lemma updateStatusFile_true_debugLog :
    (updateStatusFile true s).debugLog = s.debugLog := by
  unfold updateStatusFile; simp

@[simp] lemma setStatusMessage_handles : (setStatusMessage m b s).handles = s.handles := by
  unfold setStatusMessage; simp

@[simp] lemma setStatusMessage_active : (setStatusMessage m b s).inhibitorsActive = s.inhibitorsActive := by
  unfold setStatusMessage; simp

@[simp] lemma setStatusMessage_lastQbusError : (setStatusMessage m b s).lastQbusError = m := by
  unfold setStatusMessage; simp

@[simp] lemma setStatusMessage_pid : (setStatusMessage m b s).pid = s.pid := by
  unfold setStatusMessage; simp

@[simp] lemma setStatusMessage_debugEnabled : (setStatusMessage m b s).debugLoggingEnabled = s.debugLoggingEnabled := by
  unfold setStatusMessage; simp

@[simp] lemma setStatusMessage_events : (setStatusMessage m b s).events = s.events := by
  unfold setStatusMessage; simp

@[simp] lemma setStatusMessage_true_statusFile :
    (setStatusMessage m true s).statusFile =
      some (StatusFileContent.mk s.pid s.inhibitorsActive s.debugLoggingEnabled
        (sanitizeStatusMessage m)) := by
  unfold setStatusMessage; simp

@[simp] lemma setStatusMessage_false_statusFile :
    (setStatusMessage m false s).statusFile = s.statusFile := by
  unfold setStatusMessage; simp

end PrimitiveLemmas

section FrameLemmas

set_option maxHeartbeats 1000000

/-- Full characterization of the state effects of
acquireScreenSaverInhibitor: it appends exactly the attempt event, never
changes the active flag, the login1 descriptors, the system connection,
the pid or the debug flag; on success the stored cookie is the one parsed
from the reply, on failure the cookie field is untouched. -/
lemma acquireScreenSaver_spec (e : SSEnv) (s : ProgState) :
    (acquireScreenSaverInhibitor e s).1.events = s.events ++ [Event.ssInhibitAttempt] ∧
    (acquireScreenSaverInhibitor e s).1.inhibitorsActive = s.inhibitorsActive ∧
    (acquireScreenSaverInhibitor e s).1.handles.idleFd = s.handles.idleFd ∧
    (acquireScreenSaverInhibitor e s).1.handles.sleepFd = s.handles.sleepFd ∧
    (acquireScreenSaverInhibitor e s).1.handles.systemConnection = s.handles.systemConnection ∧
    (acquireScreenSaverInhibitor e s).1.pid = s.pid ∧
    (acquireScreenSaverInhibitor e s).1.debugLoggingEnabled = s.debugLoggingEnabled ∧
    ((acquireScreenSaverInhibitor e s).2 = true →
      e.parse = SSParse.ok (acquireScreenSaverInhibitor e s).1.handles.screenSaverCookie) ∧
    ((acquireScreenSaverInhibitor e s).2 = false →
      (acquireScreenSaverInhibitor e s).1.handles.screenSaverCookie = s.handles.screenSaverCookie) := by
  unfold acquireScreenSaverInhibitor ssConnStep getConnection
  by_cases hc : s.handles.sessionConnection = true <;>
    cases e.conn <;> by_cases hm : e.msgOk <;> cases e.call <;> cases e.parse <;>
    simp [hc, hm]

/-- Full characterization of the state effects of acquireLogin1Inhibitor:
it appends exactly the attempt event for its category, never changes the
active flag, the cookie, the session connection, the other descriptor
field, the pid or the debug flag; on success the selected descriptor field
holds the descriptor from the reply, on failure it is untouched. -/
lemma acquireLogin1_spec (what : String) (field : FdField) (e : L1Env) (s : ProgState) :
    (acquireLogin1Inhibitor what field e s).1.events = s.events ++ [Event.l1InhibitAttempt what] ∧
    (acquireLogin1Inhibitor what field e s).1.inhibitorsActive = s.inhibitorsActive ∧
    (acquireLogin1Inhibitor what field e s).1.handles.screenSaverCookie = s.handles.screenSaverCookie ∧
    (acquireLogin1Inhibitor what field e s).1.handles.sessionConnection = s.handles.sessionConnection ∧
    (acquireLogin1Inhibitor what field e s).1.pid = s.pid ∧
    (acquireLogin1Inhibitor what field e s).1.debugLoggingEnabled = s.debugLoggingEnabled ∧
    (field = FdField.idle →
      (acquireLogin1Inhibitor what field e s).1.handles.sleepFd = s.handles.sleepFd) ∧
    (field = FdField.sleep →
      (acquireLogin1Inhibitor what field e s).1.handles.idleFd = s.handles.idleFd) ∧
    ((acquireLogin1Inhibitor what field e s).2 = true →
      Int.ofNat (l1EnvFd e.iter) = (acquireLogin1Inhibitor what field e s).1.handles.getFd field ∧
      e.iter = L1Iter.fd (l1EnvFd e.iter)) ∧
    ((acquireLogin1Inhibitor what field e s).2 = false →
      (acquireLogin1Inhibitor what field e s).1.handles.getFd field = s.handles.getFd field) := by
  unfold acquireLogin1Inhibitor l1ConnStep getConnection
  cases field <;>
    by_cases hc : s.handles.systemConnection = true <;>
    cases e.conn <;> by_cases hm : e.msgOk <;> cases e.call <;> cases e.iter <;>
    simp [hc, hm, InhibitorHandles.setFd, InhibitorHandles.getFd, l1EnvFd]

section ReleaseLemmas

variable (e : RelSSEnv) (field : FdField) (w : String) (s : ProgState)

@[simp] lemma releaseSS_idleFd : (releaseScreenSaverInhibitor e s).handles.idleFd = s.handles.idleFd := by
  unfold releaseScreenSaverInhibitor
  split_ifs <;> cases e.call <;> simp

@[simp] lemma releaseSS_sleepFd : (releaseScreenSaverInhibitor e s).handles.sleepFd = s.handles.sleepFd := by
  unfold releaseScreenSaverInhibitor
  split_ifs <;> cases e.call <;> simp

@[simp] lemma releaseSS_sessionConnection :
    (releaseScreenSaverInhibitor e s).handles.sessionConnection = s.handles.sessionConnection := by
  unfold releaseScreenSaverInhibitor
  split_ifs <;> cases e.call <;> simp

@[simp] lemma releaseSS_systemConnection :
    (releaseScreenSaverInhibitor e s).handles.systemConnection = s.handles.systemConnection := by
  unfold releaseScreenSaverInhibitor
  split_ifs <;> cases e.call <;> simp

@[simp] lemma releaseSS_active :
    (releaseScreenSaverInhibitor e s).inhibitorsActive = s.inhibitorsActive := by
  unfold releaseScreenSaverInhibitor
  split_ifs <;> cases e.call <;> simp

@[simp] lemma releaseSS_lastQbusError :
    (releaseScreenSaverInhibitor e s).lastQbusError = s.lastQbusError := by
  unfold releaseScreenSaverInhibitor
  split_ifs <;> cases e.call <;> simp

@[simp] lemma releaseSS_statusFile :
    (releaseScreenSaverInhibitor e s).statusFile = s.statusFile := by
  unfold releaseScreenSaverInhibitor
  split_ifs <;> cases e.call <;> simp

@[simp] lemma releaseSS_pid : (releaseScreenSaverInhibitor e s).pid = s.pid := by
  unfold releaseScreenSaverInhibitor
  split_ifs <;> cases e.call <;> simp

@[simp] lemma releaseSS_debugEnabled :
    (releaseScreenSaverInhibitor e s).debugLoggingEnabled = s.debugLoggingEnabled := by
  unfold releaseScreenSaverInhibitor
  split_ifs <;> cases e.call <;> simp

/-- The cookie after releaseScreenSaverInhibitor: untouched when the guard
skips or when the UnInhibit message cannot be built, reset to 0 otherwise. -/
lemma releaseSS_cookie :
    (releaseScreenSaverInhibitor e s).handles.screenSaverCookie =
      if s.handles.screenSaverCookie = 0 ∨ s.handles.sessionConnection = false then
        s.handles.screenSaverCookie
      else if e.msgOk = false then s.handles.screenSaverCookie
      else 0 := by
  unfold releaseScreenSaverInhibitor
  split_ifs <;> cases e.call <;> simp

/-- The events of releaseScreenSaverInhibitor: the UnInhibit call is sent
exactly when the guard passes and the message could be built. -/
lemma releaseSS_events :
    (releaseScreenSaverInhibitor e s).events =
      s.events ++
        (if s.handles.screenSaverCookie = 0 ∨ s.handles.sessionConnection = false then []
         else if e.msgOk = false then []
         else [Event.ssUnInhibitCall s.handles.screenSaverCookie]) := by
  unfold releaseScreenSaverInhibitor
  split_ifs <;> cases e.call <;> simp

@[simp] lemma releaseFd_cookie :
    (releaseLogin1Fd field w s).handles.screenSaverCookie = s.handles.screenSaverCookie := by
  unfold releaseLogin1Fd
  split_ifs <;> cases field <;> simp [InhibitorHandles.setFd]

@[simp] lemma releaseFd_sessionConnection :
    (releaseLogin1Fd field w s).handles.sessionConnection = s.handles.sessionConnection := by
  unfold releaseLogin1Fd
  split_ifs <;> cases field <;> simp [InhibitorHandles.setFd]

@[simp] lemma releaseFd_systemConnection :
    (releaseLogin1Fd field w s).handles.systemConnection = s.handles.systemConnection := by
  unfold releaseLogin1Fd
  split_ifs <;> cases field <;> simp [InhibitorHandles.setFd]

@[simp] lemma releaseFd_active :
    (releaseLogin1Fd field w s).inhibitorsActive = s.inhibitorsActive := by
  unfold releaseLogin1Fd
  split_ifs <;> simp

@[simp] lemma releaseFd_lastQbusError :
    (releaseLogin1Fd field w s).lastQbusError = s.lastQbusError := by
  unfold releaseLogin1Fd
  split_ifs <;> simp

@[simp] lemma releaseFd_statusFile :
    (releaseLogin1Fd field w s).statusFile = s.statusFile := by
  unfold releaseLogin1Fd
  split_ifs <;> simp

@[simp] lemma releaseFd_pid : (releaseLogin1Fd field w s).pid = s.pid := by
  unfold releaseLogin1Fd
  split_ifs <;> simp

@[simp] lemma releaseFd_debugEnabled :
    (releaseLogin1Fd field w s).debugLoggingEnabled = s.debugLoggingEnabled := by
  unfold releaseLogin1Fd
  split_ifs <;> simp

@[simp] lemma releaseFd_idle_sleepFd :
    (releaseLogin1Fd FdField.idle w s).handles.sleepFd = s.handles.sleepFd := by
  unfold releaseLogin1Fd
  split_ifs <;> simp [InhibitorHandles.setFd, InhibitorHandles.getFd]

@[simp] lemma releaseFd_sleep_idleFd :
    (releaseLogin1Fd FdField.sleep w s).handles.idleFd = s.handles.idleFd := by
  unfold releaseLogin1Fd
  split_ifs <;> simp [InhibitorHandles.setFd, InhibitorHandles.getFd]

@[simp] lemma releaseFd_idle_idleFd :
    (releaseLogin1Fd FdField.idle w s).handles.idleFd =
      if 0 ≤ s.handles.idleFd then -1 else s.handles.idleFd := by
  unfold releaseLogin1Fd
  simp [InhibitorHandles.setFd, InhibitorHandles.getFd]
  split_ifs <;> simp [InhibitorHandles.setFd, InhibitorHandles.getFd]

@[simp] lemma releaseFd_sleep_sleepFd :
    (releaseLogin1Fd FdField.sleep w s).handles.sleepFd =
      if 0 ≤ s.handles.sleepFd then -1 else s.handles.sleepFd := by
  unfold releaseLogin1Fd
  simp [InhibitorHandles.setFd, InhibitorHandles.getFd]
  split_ifs <;> simp [InhibitorHandles.setFd, InhibitorHandles.getFd]

/-- The events of releaseLogin1Fd: a close happens exactly when the
descriptor is nonnegative. -/
lemma releaseFd_events :
    (releaseLogin1Fd field w s).events =
      s.events ++
        (if 0 ≤ s.handles.getFd field then [Event.fdClose (s.handles.getFd field)] else []) := by
  unfold releaseLogin1Fd
  split_ifs <;> simp

/-- A release of an already-released descriptor is a complete no-op. -/
lemma releaseFd_noop (h : s.handles.getFd field < 0) : releaseLogin1Fd field w s = s := by
  unfold releaseLogin1Fd
  rw [if_neg]
  omega

end ReleaseLemmas

section CleanupLemmas

variable (e : CleanupEnv) (s : ProgState)

@[simp] lemma cleanup_active : (cleanupInhibitors e s).inhibitorsActive = false := by
  simp only [cleanupInhibitors]
  split_ifs <;> simp

@[simp] lemma cleanup_sessionConnection :
    (cleanupInhibitors e s).handles.sessionConnection = false := by
  simp only [cleanupInhibitors]
  split_ifs <;> simp_all

@[simp] lemma cleanup_systemConnection :
    (cleanupInhibitors e s).handles.systemConnection = false := by
  simp only [cleanupInhibitors]
  split_ifs <;> simp_all

@[simp] lemma cleanup_idleFd :
    (cleanupInhibitors e s).handles.idleFd =
      if 0 ≤ s.handles.idleFd then -1 else s.handles.idleFd := by
  simp only [cleanupInhibitors]
  split_ifs <;> simp_all

@[simp] lemma cleanup_sleepFd :
    (cleanupInhibitors e s).handles.sleepFd =
      if 0 ≤ s.handles.sleepFd then -1 else s.handles.sleepFd := by
  simp only [cleanupInhibitors]
  split_ifs <;> simp_all

/-- The cookie after cleanupInhibitors is exactly the cookie after
releaseScreenSaverInhibitor: reset to 0 unless the release was skipped or
its message could not be built. -/
lemma cleanup_cookie :
    (cleanupInhibitors e s).handles.screenSaverCookie =
      if s.handles.screenSaverCookie = 0 ∨ s.handles.sessionConnection = false then
        s.handles.screenSaverCookie
      else if e.relSS.msgOk = false then s.handles.screenSaverCookie
      else 0 := by
  simp only [cleanupInhibitors]
  split_ifs <;> simp_all [releaseSS_cookie]

@[simp] lemma cleanup_lastQbusError :
    (cleanupInhibitors e s).lastQbusError = s.lastQbusError := by
  simp only [cleanupInhibitors]
  split_ifs <;> simp

@[simp] lemma cleanup_pid : (cleanupInhibitors e s).pid = s.pid := by
  simp only [cleanupInhibitors]
  split_ifs <;> simp

@[simp] lemma cleanup_debugEnabled :
    (cleanupInhibitors e s).debugLoggingEnabled = s.debugLoggingEnabled := by
  simp only [cleanupInhibitors]
  split_ifs <;> simp

/-- With a writable status file, cleanupInhibitors republishes the state
it just produced: inactive, same pid and debug flag, same last message. -/
lemma cleanup_statusFile_true (h : e.writeOk = true) :
    (cleanupInhibitors e s).statusFile =
      some (StatusFileContent.mk s.pid false s.debugLoggingEnabled
        (sanitizeStatusMessage s.lastQbusError)) := by
  simp only [cleanupInhibitors]
  rw [h]
  split_ifs <;> simp

/-- The events of cleanupInhibitors: the conditional UnInhibit call, the
conditional closes of the two descriptors, then the cleanup transition
marker. -/
lemma cleanup_events :
    (cleanupInhibitors e s).events =
      s.events ++
        ((if s.handles.screenSaverCookie = 0 ∨ s.handles.sessionConnection = false then []
          else if e.relSS.msgOk = false then []
          else [Event.ssUnInhibitCall s.handles.screenSaverCookie]) ++
         ((if 0 ≤ s.handles.idleFd then [Event.fdClose s.handles.idleFd] else []) ++
          ((if 0 ≤ s.handles.sleepFd then [Event.fdClose s.handles.sleepFd] else []) ++
           [Event.cleanupDone]))) := by
  simp only [cleanupInhibitors]
  split_ifs <;>
    simp_all [releaseFd_events, releaseSS_events, InhibitorHandles.getFd] <;>
    split_ifs <;> simp_all <;> omega

end CleanupLemmas

section AcquireLemmas

/-- Structural characterization of acquireInhibitors: the three category
attempts are made unconditionally, in the fixed screen-saver, idle, sleep
order, each contributing exactly its attempt event; the aggregate flag and
return value are the conjunction of the three results; the handle block is
exactly the one left by the three attempts; pid and debug flag are
untouched. -/
lemma acquireInhibitors_spec (e : AcqEnv) (s : ProgState) :
    (acquireInhibitors e s).1.events =
      s.events ++
        [Event.ssInhibitAttempt, Event.l1InhibitAttempt "idle", Event.l1InhibitAttempt "sleep",
         Event.acquisitionDone (acqScreenResult e s) (acqIdleResult e s) (acqSleepResult e s)] ∧
    (acquireInhibitors e s).1.inhibitorsActive = acqResult e s ∧
    (acquireInhibitors e s).2 = acqResult e s ∧
    (acquireInhibitors e s).1.handles = (afterAttempts e s).handles ∧
    (acquireInhibitors e s).1.pid = s.pid ∧
    (acquireInhibitors e s).1.debugLoggingEnabled = s.debugLoggingEnabled := by
  obtain ⟨he1, ha1, hi1, hf1, hc1, hp1, hd1, hk1, hk2⟩ := acquireScreenSaver_spec e.ss s
  obtain ⟨he2, ha2, hk3, hc2, hp2, hd2, hs2, hx2, hfd2, hff2⟩ :=
    acquireLogin1_spec "idle" FdField.idle e.idle (acquireScreenSaverInhibitor e.ss s).1
  obtain ⟨he3, ha3, hk4, hc3, hp3, hd3, hs3, hx3, hfd3, hff3⟩ :=
    acquireLogin1_spec "sleep" FdField.sleep e.sleep
      (acquireLogin1Inhibitor "idle" FdField.idle e.idle (acquireScreenSaverInhibitor e.ss s).1).1
  simp only [acquireInhibitors, acqScreenResult, acqIdleResult, acqSleepResult, acqResult,
    afterAttempts]
  split_ifs <;>
    simp_all [Bool.and_assoc]

/-- The status file written at the end of acquireInhibitors reflects the
state just produced: same pid and debug flag, active equal to the
aggregate result, message the sanitized current lastQbusError. -/
lemma acquireInhibitors_statusFile (e : AcqEnv) (s : ProgState) (h : e.writeOk = true) :
    (acquireInhibitors e s).1.statusFile =
      some (StatusFileContent.mk s.pid (acqResult e s) s.debugLoggingEnabled
        (sanitizeStatusMessage (acquireInhibitors e s).1.lastQbusError)) := by
  obtain ⟨he1, ha1, hi1, hf1, hc1, hp1, hd1, hk1, hk2⟩ := acquireScreenSaver_spec e.ss s
  obtain ⟨he2, ha2, hk3, hc2, hp2, hd2, hs2, hx2, hfd2, hff2⟩ :=
    acquireLogin1_spec "idle" FdField.idle e.idle (acquireScreenSaverInhibitor e.ss s).1
  obtain ⟨he3, ha3, hk4, hc3, hp3, hd3, hs3, hx3, hfd3, hff3⟩ :=
    acquireLogin1_spec "sleep" FdField.sleep e.sleep
      (acquireLogin1Inhibitor "idle" FdField.idle e.idle (acquireScreenSaverInhibitor e.ss s).1).1
  simp only [acquireInhibitors, acqScreenResult, acqIdleResult, acqSleepResult, acqResult,
    afterAttempts]
  rw [h]
  split_ifs <;>
    simp_all [Bool.and_assoc]

end AcquireLemmas

end FrameLemmas

section ActiveInvariant

/-- Folding the transition summary distributes over append. -/
lemma activeOfEvents_append (l1 l2 : List Event) :
    activeOfEvents (l1 ++ l2) = l2.foldl transStep (activeOfEvents l1) := by
  simp [activeOfEvents]

/-- acquireInhibitors establishes the C1 invariant unconditionally. -/
lemma ActiveInv_acquire (e : AcqEnv) (s : ProgState) :
    ActiveInv (acquireInhibitors e s).1 := by
  obtain ⟨he, ha, hr, hh, hp, hd⟩ := acquireInhibitors_spec e s
  unfold ActiveInv
  rw [he, ha, activeOfEvents_append]
  simp [transStep, acqResult]

/-- cleanupInhibitors establishes the C1 invariant unconditionally. -/
lemma ActiveInv_cleanup (e : CleanupEnv) (s : ProgState) :
    ActiveInv (cleanupInhibitors e s) := by
  unfold ActiveInv
  rw [cleanup_events, cleanup_active, activeOfEvents_append]
  split_ifs <;> simp [transStep]

/-- logDebug preserves the C1 invariant. -/
lemma ActiveInv_logDebug (m : String) (s : ProgState) (h : ActiveInv s) :
    ActiveInv (logDebug m s) := by
  unfold ActiveInv at h ⊢
  simpa using h

/-- updateStatusFile preserves the C1 invariant. -/
lemma ActiveInv_updateStatusFile (b : Bool) (s : ProgState) (h : ActiveInv s) :
    ActiveInv (updateStatusFile b s) := by
  unfold ActiveInv at h ⊢
  simpa using h

/-- setStatusMessage preserves the C1 invariant. -/
lemma ActiveInv_setStatusMessage (m : String) (b : Bool) (s : ProgState) (h : ActiveInv s) :
    ActiveInv (setStatusMessage m b s) := by
  unfold ActiveInv at h ⊢
  simpa using h

/-- The acquire block of the loop preserves the C1 invariant. -/
lemma ActiveInv_acquirePhase (e : IterEnv) (s : ProgState) (h : ActiveInv s) :
    ActiveInv (acquirePhase e s) := by
  simp only [acquirePhase]
  split_ifs with h1 h2 h3
  · exact ActiveInv_logDebug _ _ (ActiveInv_acquire e.acqEnv s)
  · exact ActiveInv_acquire e.acqEnv s
  · exact ActiveInv_updateStatusFile _ _ (ActiveInv_logDebug _ _ h)
  · exact h

/-- The release block of the loop preserves the C1 invariant. -/
lemma ActiveInv_releasePhase (e : IterEnv) (s : ProgState) (h : ActiveInv s) :
    ActiveInv (releasePhase e s) := by
  unfold releasePhase
  split_ifs with h1 h2
  · exact ActiveInv_setStatusMessage _ _ _ (ActiveInv_cleanup e.cleanup s)
  · exact ActiveInv_setStatusMessage _ _ _ h
  · exact h

/-- One loop iteration preserves the C1 invariant. -/
lemma ActiveInv_loopIter (e : IterEnv) (s : ProgState) (h : ActiveInv s) :
    ActiveInv (loopIter e s) :=
  ActiveInv_releasePhase e _ (ActiveInv_acquirePhase e s h)

/-- The initial acquisition establishes the C1 invariant. -/
lemma ActiveInv_afterInitialAcquire (a : AcqEnv) (s : ProgState) :
    ActiveInv (afterInitialAcquire a s) := by
  simp only [afterInitialAcquire]
  split_ifs
  · exact ActiveInv_logDebug _ _ (ActiveInv_acquire a s)
  · exact ActiveInv_acquire a s

/-- A list of loop iterations preserves the C1 invariant. -/
lemma ActiveInv_foldIters (iters : List IterEnv) (s : ProgState) (h : ActiveInv s) :
    ActiveInv (iters.foldl (fun st e => loopIter e st) s) := by
  induction iters generalizing s with
  | nil => exact h
  | cons e rest ih => exact ih _ (ActiveInv_loopIter e s h)

/-- Any run prefix maintains the C1 invariant. -/
lemma ActiveInv_runUpTo (a : AcqEnv) (iters : List IterEnv) (s : ProgState) :
    ActiveInv (runUpTo a iters s) :=
  ActiveInv_foldIters iters _ (ActiveInv_afterInitialAcquire a s)

/-- The termination path establishes the C1 invariant. -/
lemma ActiveInv_terminationStep (e : TermEnv) (s : ProgState) :
    ActiveInv (terminationStep e s) := by
  simp only [terminationStep]
  split_ifs
  · exact ActiveInv_setStatusMessage _ _ _ (ActiveInv_cleanup e.cleanup _)
  · exact ActiveInv_cleanup e.cleanup _

end ActiveInvariant
section Claims

/-- C1: For every sequence of acquire, release and terminate requests
processed by the inhibitor loop, the in-memory active flag
(inhibitorsActive) is true if and only if the most recent full acquisition
attempt (acquireInhibitors) succeeded on all three lease categories and no
release or termination cleanup has occurred since.  Formally: at every
point of every run (every prefix of loop iterations, and after the
termination path), inhibitorsActive equals activeOfEvents of the ghost
event history, which is true exactly when the latest completed transition
event is an acquisitionDone with all three category results true and no
cleanupDone or failed acquisitionDone follows it. -/
theorem C1_active_iff_last_full_acquisition (pid : Nat) (dbg : Bool) (a : AcqEnv)
    (iters : List IterEnv) (term : TermEnv) :
    ActiveInv (runUpTo a iters (processStart pid dbg)) ∧
    ActiveInv (runInhibitorLoop a iters term (processStart pid dbg)) :=
  ⟨ActiveInv_runUpTo a iters _, ActiveInv_terminationStep term _⟩

/-- C10: Every full acquisition attempt unconditionally attempts all three
lease acquisitions in the fixed order screen saver, then idle, then sleep:
for every environment (including ones where earlier categories fail) and
every starting state, acquireInhibitors appends exactly the three attempt
events in that order (followed by the transition summary event), so no
failure of an earlier category ever skips a later category. -/
theorem C10_all_three_attempted_in_order (e : AcqEnv) (s : ProgState) :
    (acquireInhibitors e s).1.events =
      s.events ++
        [Event.ssInhibitAttempt, Event.l1InhibitAttempt "idle", Event.l1InhibitAttempt "sleep",
         Event.acquisitionDone (acqScreenResult e s) (acqIdleResult e s) (acqSleepResult e s)] :=
  (acquireInhibitors_spec e s).1

/-- A loop iteration that carries no acquire request and starts inactive
never touches the handle block. -/
lemma loopIter_handles_inactive_noacq (e2 : IterEnv) (s : ProgState)
    (hact : s.inhibitorsActive = false) (hacq : e2.acq = false) :
    (loopIter e2 s).handles = s.handles := by
  unfold loopIter releasePhase acquirePhase
  rw [hacq]
  simp only [if_false, Bool.false_eq_true]
  split_ifs <;> simp_all

/-- C2 (amended): if a full acquisition attempt succeeds on only a proper
subset of the three lease categories, then after acquireInhibitors returns
the active flag is false, every handle successfully obtained in that
attempt (screen-saver cookie, idle fd, sleep fd) is stored, the attempt
performs no release action, and the handles stay unchanged until the next
cleanupInhibitors or the next full acquisition attempt, whichever comes
first (loop iterations without an acquire request cannot change them while
inactive).  The original claim said unchanged until the next cleanup
unconditionally; an intervening acquisition attempt can overwrite a handle
without releasing it, see the counterexample. -/
theorem C2_partial_acquisition_retains_handles (e : AcqEnv) (s : ProgState)
    (h : acqResult e s = false) :
    (acquireInhibitors e s).1.inhibitorsActive = false ∧
    (acquireInhibitors e s).2 = false ∧
    (acquireInhibitors e s).1.handles = (afterAttempts e s).handles ∧
    (acqScreenResult e s = true →
      e.ss.parse = SSParse.ok (acquireInhibitors e s).1.handles.screenSaverCookie) ∧
    (acqIdleResult e s = true →
      (acquireInhibitors e s).1.handles.idleFd = Int.ofNat (l1EnvFd e.idle.iter)) ∧
    (acqSleepResult e s = true →
      (acquireInhibitors e s).1.handles.sleepFd = Int.ofNat (l1EnvFd e.sleep.iter)) ∧
    (∃ l, (acquireInhibitors e s).1.events = s.events ++ l ∧
      ∀ ev ∈ l, isReleaseEvent ev = false) ∧
    (∀ e2 : IterEnv, e2.acq = false →
      (loopIter e2 (acquireInhibitors e s).1).handles = (acquireInhibitors e s).1.handles) := by
  obtain ⟨he, ha, hr, hh, hp, hd⟩ := acquireInhibitors_spec e s
  obtain ⟨he1, ha1, hi1, hf1, hc1, hp1, hd1, hk1, hk2⟩ := acquireScreenSaver_spec e.ss s
  obtain ⟨he2, ha2, hk3, hc2, hp2, hd2, hs2, hx2, hfd2, hff2⟩ :=
    acquireLogin1_spec "idle" FdField.idle e.idle (acquireScreenSaverInhibitor e.ss s).1
  obtain ⟨he3, ha3, hk4, hc3, hp3, hd3, hs3, hx3, hfd3, hff3⟩ :=
    acquireLogin1_spec "sleep" FdField.sleep e.sleep
      (acquireLogin1Inhibitor "idle" FdField.idle e.idle (acquireScreenSaverInhibitor e.ss s).1).1
  refine ⟨by rw [ha, h], by rw [hr, h], hh, ?_, ?_, ?_, ?_, ?_⟩
  · intro hscr
    rw [hh]
    unfold afterAttempts
    rw [hk4, hk3]
    exact hk1 hscr
  · intro hidle
    rw [hh]
    unfold afterAttempts
    have hpres := hx3 rfl
    rw [hpres]
    exact ((hfd2 hidle).1).symm
  · intro hsleep
    rw [hh]
    unfold afterAttempts
    exact ((hfd3 hsleep).1).symm
  · exact ⟨_, he, by intro ev hev; fin_cases hev <;> rfl⟩
  · intro e2 hacq
    exact loopIter_handles_inactive_noacq e2 _ (by rw [ha, h]) hacq

/-- C2 counterexample to the original phrasing: starting from process
start, a partial acquisition (screen saver fails, idle and sleep succeed)
stores idle descriptor 5; a later acquire request runs a second full
acquisition that overwrites the descriptor with 9 even though no
cleanupInhibitors has run and descriptor 5 was never closed.  So a handle
obtained in a partial acquisition is not retained unchanged until the next
cleanup. -/
theorem C2_counterexample :
    (acquireInhibitors acqEnvPartial (processStart 42 false)).1.inhibitorsActive = false ∧
    acqIdleResult acqEnvPartial (processStart 42 false) = true ∧
    (acquireInhibitors acqEnvPartial (processStart 42 false)).1.handles.idleFd = 5 ∧
    Event.cleanupDone ∉
      (loopIter iterAcqOk2 (acquireInhibitors acqEnvPartial (processStart 42 false)).1).events ∧
    Event.fdClose 5 ∉
      (loopIter iterAcqOk2 (acquireInhibitors acqEnvPartial (processStart 42 false)).1).events ∧
    (loopIter iterAcqOk2 (acquireInhibitors acqEnvPartial (processStart 42 false)).1).handles.idleFd ≠ 5 := by
  decide

/-- C2 witness: the amended theorem applied to the concrete partial
acquisition used in the counterexample. -/
theorem C2_witness :
    (acquireInhibitors acqEnvPartial (processStart 42 false)).1.inhibitorsActive = false :=
  (C2_partial_acquisition_retains_handles acqEnvPartial (processStart 42 false) (by decide)).1

/-- C3: when an acquire request is observed while the controller is
already active, the loop performs no lease operation (the ghost event list
is unchanged), leaves the handles, the active flag and the last status
message unchanged, republishes the status file from the current state, and
produces the already-active no-op diagnostic (a debug-log line, as the
spec says: a debug no-op, not a new status message). -/
theorem C3_acquire_noop_when_active (e : IterEnv) (s : ProgState)
    (hact : s.inhibitorsActive = true) (hacq : e.acq = true) (hrel : e.rel = false)
    (hw : e.acqNoopWriteOk = true) :
    (loopIter e s).handles = s.handles ∧
    (loopIter e s).inhibitorsActive = true ∧
    (loopIter e s).lastQbusError = s.lastQbusError ∧
    (loopIter e s).events = s.events ∧
    (loopIter e s).statusFile =
      some (StatusFileContent.mk s.pid true s.debugLoggingEnabled
        (sanitizeStatusMessage s.lastQbusError)) ∧
    (s.debugLoggingEnabled = true →
      (loopIter e s).debugLog =
        s.debugLog ++ ["[debug] Acquire request ignored; inhibitors already active."]) := by
  unfold loopIter releasePhase acquirePhase
  rw [hacq, hrel, hact, hw]
  refine ⟨by simp, by simp [hact], by simp, by simp, by simp [hact], ?_⟩
  intro hdbg
  simp [logDebug, hdbg]

/-- C4: when a release request is observed while the controller is
inactive, no lease is released (ghost events unchanged), the handles and
the active flag are unchanged, and the published message becomes the
already-inactive message; when observed while active, the cleanup releases
every held lease (an UnInhibit call for a held cookie over a live
connection whose message could be built, a close for each nonnegative
descriptor, descriptors reset, connections dropped), the state becomes
inactive and the released-by-user message is published. -/
theorem C4_release_request_dichotomy (e : IterEnv) (s : ProgState)
    (hrel : e.rel = true) (hacq : e.acq = false) (hw : e.relMsgWriteOk = true) :
    (s.inhibitorsActive = false →
      (loopIter e s).handles = s.handles ∧
      (loopIter e s).inhibitorsActive = false ∧
      (loopIter e s).events = s.events ∧
      (loopIter e s).lastQbusError = "Inhibitors already inactive." ∧
      (loopIter e s).statusFile =
        some (StatusFileContent.mk s.pid false s.debugLoggingEnabled
          (sanitizeStatusMessage "Inhibitors already inactive."))) ∧
    (s.inhibitorsActive = true →
      (loopIter e s).inhibitorsActive = false ∧
      (loopIter e s).lastQbusError = "Inhibitors released by user request." ∧
      (loopIter e s).handles.idleFd =
        (if 0 ≤ s.handles.idleFd then -1 else s.handles.idleFd) ∧
      (loopIter e s).handles.sleepFd =
        (if 0 ≤ s.handles.sleepFd then -1 else s.handles.sleepFd) ∧
      (loopIter e s).handles.sessionConnection = false ∧
      (loopIter e s).handles.systemConnection = false ∧
      Event.cleanupDone ∈ (loopIter e s).events ∧
      (0 ≤ s.handles.idleFd → Event.fdClose s.handles.idleFd ∈ (loopIter e s).events) ∧
      (0 ≤ s.handles.sleepFd → Event.fdClose s.handles.sleepFd ∈ (loopIter e s).events) ∧
      (¬ (s.handles.screenSaverCookie = 0 ∨ s.handles.sessionConnection = false) →
        e.cleanup.relSS.msgOk = true →
        Event.ssUnInhibitCall s.handles.screenSaverCookie ∈ (loopIter e s).events) ∧
      (loopIter e s).statusFile =
        some (StatusFileContent.mk s.pid false s.debugLoggingEnabled
          (sanitizeStatusMessage "Inhibitors released by user request."))) := by
  unfold loopIter releasePhase acquirePhase
  rw [hacq, hrel]
  constructor
  · intro hact
    rw [hw]
    simp [hact]
  · intro hact
    rw [hw]
    simp [hact, cleanup_events]
    refine ⟨?_, ?_, ?_⟩
    · intro h0
      simp [h0]
    · intro h0
      simp [h0]
    · intro hguard hmsg hm
      exact Or.inr ⟨⟨hguard, hmsg⟩, hm⟩

/-- C5: when termination is requested, the loop exits and cleanup still
runs over whatever handles exist (the cleanup transition event is always
recorded and every nonnegative descriptor is closed); the final published
message is the process-exiting released message exactly when the
inhibitors were active at the moment termination was observed, and is left
untouched when they were not - so an inactive controller never claims that
leases were released. -/
theorem C5_termination_message_only_when_active (e : TermEnv) (s : ProgState) :
    (s.inhibitorsActive = false →
      (terminationStep e s).lastQbusError = s.lastQbusError) ∧
    (s.inhibitorsActive = true →
      (terminationStep e s).lastQbusError = "Inhibitors released (process exiting).") ∧
    Event.cleanupDone ∈ (terminationStep e s).events ∧
    (0 ≤ s.handles.idleFd → Event.fdClose s.handles.idleFd ∈ (terminationStep e s).events) ∧
    (0 ≤ s.handles.sleepFd → Event.fdClose s.handles.sleepFd ∈ (terminationStep e s).events) ∧
    (terminationStep e s).inhibitorsActive = false := by
  simp only [terminationStep]
  split_ifs with h <;>
    refine ⟨?_, ?_, ?_, ?_, ?_, ?_⟩ <;>
    simp_all [cleanup_events]

/-- C3 witness: an acquire-only iteration on a concrete active state
leaves the ghost event list (hence the leases) untouched. -/
theorem C3_witness :
    (loopIter iterAcqOk2 c3State).events = c3State.events :=
  (C3_acquire_noop_when_active iterAcqOk2 c3State (by decide) rfl rfl rfl).2.2.2.1

/-- C4 witness: a release-only iteration on the concrete inactive start
state publishes the already-inactive message. -/
theorem C4_witness :
    (loopIter iterRelOnly (processStart 7 false)).lastQbusError =
      "Inhibitors already inactive." :=
  ((C4_release_request_dichotomy iterRelOnly (processStart 7 false) rfl rfl rfl).1
    (by decide)).2.2.2.1

/-- C5 witness: terminating the concrete inactive start state keeps its
initial status message, which is not the released message. -/
theorem C5_witness :
    (terminationStep termEnvOk (processStart 9 false)).lastQbusError =
      (processStart 9 false).lastQbusError :=
  (C5_termination_message_only_when_active termEnvOk (processStart 9 false)).1 (by decide)

/-- A cleanup on a state with no session connection and no held
descriptors performs no release action: only the transition marker is
recorded. -/
lemma cleanup_second_no_release (e2 : CleanupEnv) (t : ProgState)
    (hconn : t.handles.sessionConnection = false)
    (hidle : t.handles.idleFd < 0) (hsleep : t.handles.sleepFd < 0) :
    (cleanupInhibitors e2 t).events = t.events ++ [Event.cleanupDone] := by
  rw [cleanup_events]
  simp [hconn, show ¬(0 ≤ t.handles.idleFd) from by omega,
    show ¬(0 ≤ t.handles.sleepFd) from by omega]

/-- C6 (amended): releasing an already-released login1 descriptor
(negative fd) performs no close and changes nothing at all; after
cleanupInhibitors completes, the active flag is cleared, both connections
are dropped, each descriptor that was valid (at least -1) is reset to -1,
and the cookie is reset to 0 provided the release was not skipped for lack
of a connection and the UnInhibit message could be built (otherwise the
stale cookie is retained, but its connection is gone); consequently a
second cleanupInhibitors performs no release action on any lease. -/
theorem C6_release_and_cleanup_idempotent (f : FdField) (w : String)
    (e e2 : CleanupEnv) (s : ProgState) :
    (s.handles.getFd f < 0 → releaseLogin1Fd f w s = s) ∧
    (cleanupInhibitors e s).inhibitorsActive = false ∧
    (cleanupInhibitors e s).handles.sessionConnection = false ∧
    (cleanupInhibitors e s).handles.systemConnection = false ∧
    (-1 ≤ s.handles.idleFd → (cleanupInhibitors e s).handles.idleFd = -1) ∧
    (-1 ≤ s.handles.sleepFd → (cleanupInhibitors e s).handles.sleepFd = -1) ∧
    (s.handles.screenSaverCookie = 0 ∨
        (s.handles.sessionConnection = true ∧ e.relSS.msgOk = true) →
      (cleanupInhibitors e s).handles.screenSaverCookie = 0) ∧
    (cleanupInhibitors e2 (cleanupInhibitors e s)).events =
      (cleanupInhibitors e s).events ++ [Event.cleanupDone] := by
  refine ⟨releaseFd_noop f w s, cleanup_active e s, cleanup_sessionConnection e s,
    cleanup_systemConnection e s, ?_, ?_, ?_, ?_⟩
  · intro h
    rw [cleanup_idleFd]
    split_ifs <;> omega
  · intro h
    rw [cleanup_sleepFd]
    split_ifs <;> omega
  · intro h
    rw [cleanup_cookie]
    rcases h with h | ⟨h1, h2⟩
    · split_ifs <;> simp_all
    · split_ifs <;> simp_all
  · refine cleanup_second_no_release e2 _ (cleanup_sessionConnection e s) ?_ ?_
    · rw [cleanup_idleFd]
      split_ifs <;> omega
    · rw [cleanup_sleepFd]
      split_ifs <;> omega

/-- C6 counterexample to the original phrasing: on the concrete active
state (cookie 7, live session connection), a cleanup whose UnInhibit
message construction fails completes with the cookie still 7, so not all
handle fields are reset by cleanupInhibitors. -/
theorem C6_counterexample :
    c3State.handles.screenSaverCookie = 7 ∧
    c3State.handles.sessionConnection = true ∧
    (cleanupInhibitors cleanupEnvMsgFail c3State).handles.screenSaverCookie = 7 := by
  decide

/-- C6 witness: releasing the already-released idle descriptor of the
concrete start state changes nothing. -/
theorem C6_witness :
    releaseLogin1Fd FdField.idle "idle" (processStart 11 false) = processStart 11 false :=
  (C6_release_and_cleanup_idempotent FdField.idle "idle" cleanupEnvOk cleanupEnvOk
    (processStart 11 false)).1 (by decide)

/-- Parsing a pid line recovers key and value. -/
lemma parse_pid_line (v : String) : parseStatusLine ("pid=" ++ v) = some ("pid", v) := by
  unfold parseStatusLine
  rw [show ("pid=" ++ v).data = 'p' :: 'i' :: 'd' :: '=' :: v.data from by
    rw [String.data_append]; rfl]
  simp [List.findIdx?_cons]

/-- Parsing an active line recovers key and value. -/
lemma parse_active_line (v : String) :
    parseStatusLine ("active=" ++ v) = some ("active", v) := by
  unfold parseStatusLine
  rw [show ("active=" ++ v).data = 'a' :: 'c' :: 't' :: 'i' :: 'v' :: 'e' :: '=' :: v.data from by
    rw [String.data_append]; rfl]
  simp [List.findIdx?_cons]

/-- Parsing a debug line recovers key and value. -/
lemma parse_debug_line (v : String) :
    parseStatusLine ("debug=" ++ v) = some ("debug", v) := by
  unfold parseStatusLine
  rw [show ("debug=" ++ v).data = 'd' :: 'e' :: 'b' :: 'u' :: 'g' :: '=' :: v.data from by
    rw [String.data_append]; rfl]
  simp [List.findIdx?_cons]

/-- Parsing a message line recovers key and value, whatever the message
text is. -/
lemma parse_message_line (v : String) :
    parseStatusLine ("message=" ++ v) = some ("message", v) := by
  unfold parseStatusLine
  rw [show ("message=" ++ v).data =
      'm' :: 'e' :: 's' :: 's' :: 'a' :: 'g' :: 'e' :: '=' :: v.data from by
    rw [String.data_append]; rfl]
  simp [List.findIdx?_cons]

/-- Round trip: the showUI reader recovers exactly the active flag that
updateStatusFile serialized. -/
lemma readActive_statusFileLines (f : StatusFileContent) :
    readActiveFromLines (statusFileLines f) = f.active := by
  unfold readActiveFromLines statusFileLines
  cases hfa : f.active <;>
    simp [readActiveStep, parse_pid_line, parse_active_line, parse_debug_line,
      parse_message_line, hfa] <;>
    decide

/-- StatusAgrees follows from a published record whose active field equals
the in-memory flag. -/
lemma statusAgrees_mk (s : ProgState) (f : StatusFileContent)
    (h : s.statusFile = some f) (h2 : f.active = s.inhibitorsActive) : StatusAgrees s :=
  ⟨f, h, by rw [readActive_statusFileLines, h2]⟩

/-- A writable updateStatusFile always leaves an agreeing status file. -/
lemma StatusAgrees_updateStatusFile (s : ProgState) :
    StatusAgrees (updateStatusFile true s) :=
  statusAgrees_mk _ (StatusFileContent.mk s.pid s.inhibitorsActive s.debugLoggingEnabled
    (sanitizeStatusMessage s.lastQbusError)) (by simp) (by simp)

/-- A writable setStatusMessage always leaves an agreeing status file. -/
lemma StatusAgrees_setStatusMessage (m : String) (s : ProgState) :
    StatusAgrees (setStatusMessage m true s) := by
  unfold setStatusMessage
  exact StatusAgrees_updateStatusFile _

/-- logDebug does not disturb status agreement. -/
lemma StatusAgrees_logDebug (m : String) (s : ProgState) (h : StatusAgrees s) :
    StatusAgrees (logDebug m s) := by
  obtain ⟨f, h1, h2⟩ := h
  exact ⟨f, by simpa using h1, by simpa using h2⟩

/-- A cleanup with a writable status file leaves an agreeing status file. -/
lemma StatusAgrees_cleanup (e : CleanupEnv) (s : ProgState) (h : e.writeOk = true) :
    StatusAgrees (cleanupInhibitors e s) :=
  statusAgrees_mk _ _ (cleanup_statusFile_true e s h) (by simp)

/-- An acquisition attempt with a writable status file leaves an agreeing
status file. -/
lemma StatusAgrees_acquire (e : AcqEnv) (s : ProgState) (h : e.writeOk = true) :
    StatusAgrees (acquireInhibitors e s).1 :=
  statusAgrees_mk _ _ (acquireInhibitors_statusFile e s h)
    ((acquireInhibitors_spec e s).2.1).symm

/-- C7: after every completed state transition - a full acquisition
attempt (initial or requested), an acquire no-op, a release or release
no-op, and the termination cleanup - the status file is rewritten after
the in-memory update, so that (when the file is writable) the showUI
reader recovers from the published lines an active flag equal to the
in-memory inhibitorsActive flag. -/
theorem C7_status_file_matches_state (a : AcqEnv) (e : IterEnv) (t : TermEnv) (s : ProgState)
    (ha : a.writeOk = true) (h1 : e.acqEnv.writeOk = true) (h2 : e.acqNoopWriteOk = true)
    (h3 : e.relMsgWriteOk = true) (ht : t.msgWriteOk = true) (htc : t.cleanup.writeOk = true) :
    StatusAgrees (acquireInhibitors a s).1 ∧
    StatusAgrees (afterInitialAcquire a s) ∧
    (e.acq = true ∨ e.rel = true → StatusAgrees (loopIter e s)) ∧
    StatusAgrees (terminationStep t s) := by
  refine ⟨StatusAgrees_acquire a s ha, ?_, ?_, ?_⟩
  · simp only [afterInitialAcquire]
    split_ifs
    · exact StatusAgrees_logDebug _ _ (StatusAgrees_acquire a s ha)
    · exact StatusAgrees_acquire a s ha
  · intro hreq
    unfold loopIter
    have hphase : e.acq = true → StatusAgrees (acquirePhase e s) := by
      intro hacq
      simp only [acquirePhase]
      split_ifs with hA hB
      · exact StatusAgrees_logDebug _ _ (StatusAgrees_acquire e.acqEnv s h1)
      · exact StatusAgrees_acquire e.acqEnv s h1
      · rw [h2]
        exact StatusAgrees_updateStatusFile _
    unfold releasePhase
    split_ifs with hR hS
    · rw [h3]
      exact StatusAgrees_setStatusMessage _ _
    · rw [h3]
      exact StatusAgrees_setStatusMessage _ _
    · rcases hreq with hacq | hrelx
      · exact hphase hacq
      · exact absurd hrelx hR
  · simp only [terminationStep]
    split_ifs
    · rw [ht]
      exact StatusAgrees_setStatusMessage _ _
    · exact StatusAgrees_cleanup t.cleanup _ htc

/-- C7 witness: the concrete successful initial acquisition publishes a
status file from which the reader recovers the active flag. -/
theorem C7_witness :
    StatusAgrees (acquireInhibitors acqEnvOk (processStart 3 false)).1 :=
  (C7_status_file_matches_state acqEnvOk iterAcqOk2 termEnvOk (processStart 3 false)
    rfl rfl rfl rfl rfl rfl).1

/-- The two in-place replacements of sanitizeStatusMessage compose to a
single character map sending linefeed and carriage return to space. -/
lemma sanitize_as_single_map (m : String) :
    sanitizeStatusMessage m =
      String.mk (m.data.map fun c => if c = '\n' ∨ c = '\r' then ' ' else c) := by
  simp only [sanitizeStatusMessage]
  rw [List.map_map]
  congr 1
  apply List.map_congr_left
  intro c _
  by_cases h1 : c = '\n' <;> by_cases h2 : c = '\r' <;>
    simp [h1, h2, Function.comp]

/-- No character of a sanitized message is a linefeed or carriage
return. -/
lemma sanitize_single_line (m : String) :
    '\n' ∉ (sanitizeStatusMessage m).data ∧ '\r' ∉ (sanitizeStatusMessage m).data := by
  rw [sanitize_as_single_map]
  constructor <;>
    · intro hmem
      simp only [List.mem_map] at hmem
      obtain ⟨a, ha, heq⟩ := hmem
      revert heq
      by_cases h1 : a = '\n' <;> by_cases h2 : a = '\r' <;> simp [h1, h2]

/-- C8: for every state, a successful status publication writes exactly
the four lines pid=, active= (0 or 1), debug= (0 or 1) and message=, where
the message text is the input message with every linefeed and carriage
return replaced by a space - hence the message field always occupies a
single line. -/
theorem C8_status_file_serialization (s : ProgState) (m : String) :
    (updateStatusFile true s).statusFile =
      some (StatusFileContent.mk s.pid s.inhibitorsActive s.debugLoggingEnabled
        (sanitizeStatusMessage s.lastQbusError)) ∧
    statusFileLines (StatusFileContent.mk s.pid s.inhibitorsActive s.debugLoggingEnabled
        (sanitizeStatusMessage s.lastQbusError)) =
      ["pid=" ++ toString s.pid,
       "active=" ++ (if s.inhibitorsActive then "1" else "0"),
       "debug=" ++ (if s.debugLoggingEnabled then "1" else "0"),
       "message=" ++ sanitizeStatusMessage s.lastQbusError] ∧
    sanitizeStatusMessage m =
      String.mk (m.data.map fun c => if c = '\n' ∨ c = '\r' then ' ' else c) ∧
    '\n' ∉ (sanitizeStatusMessage m).data ∧
    '\r' ∉ (sanitizeStatusMessage m).data :=
  ⟨by simp, rfl, sanitize_as_single_map m, (sanitize_single_line m).1,
    (sanitize_single_line m).2⟩

section DebugNoninterference

/-- emit preserves debug-independence. -/
lemma DebugIndep_emit (ev : Event) {s t : ProgState} (h : DebugIndep s t) :
    DebugIndep (emit ev s) (emit ev t) := by
  obtain ⟨h1, h2, h3, h4, h5, h6⟩ := h
  exact ⟨by simpa using h1, by simpa using h2, by simpa using h3,
    by simp [h4], by simpa using h5, by simpa using h6⟩

/-- logDebug preserves debug-independence (it only touches the log). -/
lemma DebugIndep_logDebug (m : String) {s t : ProgState} (h : DebugIndep s t) :
    DebugIndep (logDebug m s) (logDebug m t) := by
  obtain ⟨h1, h2, h3, h4, h5, h6⟩ := h
  exact ⟨by simpa using h1, by simpa using h2, by simpa using h3,
    by simpa using h4, by simpa using h5, by simpa using h6⟩

/-- updateStatusFile preserves debug-independence: the written records
differ only in their debug field. -/
lemma DebugIndep_update (b : Bool) {s t : ProgState} (h : DebugIndep s t) :
    DebugIndep (updateStatusFile b s) (updateStatusFile b t) := by
  obtain ⟨h1, h2, h3, h4, h5, h6⟩ := h
  refine ⟨by simpa using h1, by simpa using h2, by simpa using h3,
    by simpa using h4, by simpa using h5, ?_⟩
  cases b
  · simpa using h6
  · simp only [updateStatusFile_true_statusFile]
    exact ⟨h5, h2, by rw [h3]⟩

/-- Updating the stored message with the same text preserves
debug-independence. -/
lemma DebugIndep_setLast (m : String) {s t : ProgState} (h : DebugIndep s t) :
    DebugIndep { s with lastQbusError := m } { t with lastQbusError := m } := by
  obtain ⟨h1, h2, h3, h4, h5, h6⟩ := h
  exact ⟨by simpa using h1, by simpa using h2, rfl, by simpa using h4,
    by simpa using h5, by simpa using h6⟩

/-- setStatusMessage preserves debug-independence. -/
lemma DebugIndep_setStatusMessage (m : String) (b : Bool) {s t : ProgState}
    (h : DebugIndep s t) :
    DebugIndep (setStatusMessage m b s) (setStatusMessage m b t) := by
  unfold setStatusMessage
  exact DebugIndep_update b (DebugIndep_logDebug m (DebugIndep_setLast m h))

/-- Applying the same handle-block transformation on both sides preserves
debug-independence. -/
lemma DebugIndep_setHandles {s t : ProgState} (h : DebugIndep s t)
    (f : InhibitorHandles → InhibitorHandles) :
    DebugIndep { s with handles := f s.handles } { t with handles := f t.handles } := by
  obtain ⟨h1, h2, h3, h4, h5, h6⟩ := h
  exact ⟨by simp [h1], by simpa using h2, by simpa using h3, by simpa using h4,
    by simpa using h5, by simpa using h6⟩

/-- Setting the active flag to the same value on both sides preserves
debug-independence. -/
lemma DebugIndep_setActive (b : Bool) {s t : ProgState} (h : DebugIndep s t) :
    DebugIndep { s with inhibitorsActive := b } { t with inhibitorsActive := b } := by
  obtain ⟨h1, h2, h3, h4, h5, h6⟩ := h
  exact ⟨by simpa using h1, rfl, by simpa using h3, by simpa using h4,
    by simpa using h5, by simpa using h6⟩

/-- getConnection preserves debug-independence, and its success is a
function of the environment alone. -/
lemma DebugIndep_getConnection (label : String) (r : ConnResult) (w : Bool)
    {s t : ProgState} (h : DebugIndep s t) :
    DebugIndep (getConnection label r w s).1 (getConnection label r w t).1 ∧
    (getConnection label r w s).2 = (getConnection label r w t).2 := by
  cases r
  · exact ⟨DebugIndep_setStatusMessage _ _ h, rfl⟩
  · exact ⟨DebugIndep_setStatusMessage _ _ h, rfl⟩
  · exact ⟨h, rfl⟩

/-- The session-connection step preserves debug-independence and returns
the same success on both sides. -/
lemma DebugIndep_ssConnStep (e : SSEnv) {s t : ProgState} (h : DebugIndep s t) :
    DebugIndep (ssConnStep e s).1 (ssConnStep e t).1 ∧
    (ssConnStep e s).2 = (ssConnStep e t).2 := by
  obtain ⟨hgc, hgc2⟩ := DebugIndep_getConnection "session" e.conn e.writeOk h
  simp only [ssConnStep]
  rw [show t.handles.sessionConnection = s.handles.sessionConnection from by rw [h.1]]
  by_cases hc : s.handles.sessionConnection = true
  · rw [if_pos hc, if_pos hc]
    exact ⟨h, rfl⟩
  · rw [if_neg hc, if_neg hc, ← hgc2]
    by_cases hr2 : (getConnection "session" e.conn e.writeOk s).2 = true
    · rw [if_pos hr2, if_pos hr2]
      exact ⟨DebugIndep_setHandles hgc (fun hh => { hh with sessionConnection := true }), rfl⟩
    · rw [if_neg hr2, if_neg hr2]
      exact ⟨hgc, rfl⟩

/-- The system-connection step preserves debug-independence and returns
the same success on both sides. -/
lemma DebugIndep_l1ConnStep (e : L1Env) {s t : ProgState} (h : DebugIndep s t) :
    DebugIndep (l1ConnStep e s).1 (l1ConnStep e t).1 ∧
    (l1ConnStep e s).2 = (l1ConnStep e t).2 := by
  obtain ⟨hgc, hgc2⟩ := DebugIndep_getConnection "system" e.conn e.writeOk h
  simp only [l1ConnStep]
  rw [show t.handles.systemConnection = s.handles.systemConnection from by rw [h.1]]
  by_cases hc : s.handles.systemConnection = true
  · rw [if_pos hc, if_pos hc]
    exact ⟨h, rfl⟩
  · rw [if_neg hc, if_neg hc, ← hgc2]
    by_cases hr2 : (getConnection "system" e.conn e.writeOk s).2 = true
    · rw [if_pos hr2, if_pos hr2]
      exact ⟨DebugIndep_setHandles hgc (fun hh => { hh with systemConnection := true }), rfl⟩
    · rw [if_neg hr2, if_neg hr2]
      exact ⟨hgc, rfl⟩

/-- The screen-saver acquisition preserves debug-independence and returns
the same result on both sides. -/
lemma DebugIndep_acquireSS (e : SSEnv) {s t : ProgState} (h : DebugIndep s t) :
    DebugIndep (acquireScreenSaverInhibitor e s).1 (acquireScreenSaverInhibitor e t).1 ∧
    (acquireScreenSaverInhibitor e s).2 = (acquireScreenSaverInhibitor e t).2 := by
  obtain ⟨hcs, hcs2⟩ := DebugIndep_ssConnStep e (DebugIndep_emit Event.ssInhibitAttempt h)
  simp only [acquireScreenSaverInhibitor]
  rw [← hcs2]
  by_cases hc2 : (ssConnStep e (emit Event.ssInhibitAttempt s)).2 = false
  · rw [if_pos hc2, if_pos hc2]
    exact ⟨hcs, rfl⟩
  · rw [if_neg hc2, if_neg hc2]
    by_cases hm : e.msgOk = false
    · rw [if_pos hm, if_pos hm]
      exact ⟨DebugIndep_setStatusMessage _ _ hcs, rfl⟩
    · rw [if_neg hm, if_neg hm]
      cases e.call
      · exact ⟨DebugIndep_setStatusMessage _ _ hcs, rfl⟩
      · exact ⟨DebugIndep_setStatusMessage _ _ hcs, rfl⟩
      · cases e.parse
        · exact ⟨DebugIndep_setStatusMessage _ _ hcs, rfl⟩
        · exact ⟨DebugIndep_logDebug _
            (DebugIndep_setHandles hcs (fun hh => { hh with screenSaverCookie := _ })), rfl⟩

/-- The login1 acquisition preserves debug-independence and returns the
same result on both sides. -/
lemma DebugIndep_acquireL1 (what : String) (field : FdField) (e : L1Env)
    {s t : ProgState} (h : DebugIndep s t) :
    DebugIndep (acquireLogin1Inhibitor what field e s).1
      (acquireLogin1Inhibitor what field e t).1 ∧
    (acquireLogin1Inhibitor what field e s).2 = (acquireLogin1Inhibitor what field e t).2 := by
  obtain ⟨hcs, hcs2⟩ := DebugIndep_l1ConnStep e (DebugIndep_emit (Event.l1InhibitAttempt what) h)
  simp only [acquireLogin1Inhibitor]
  rw [← hcs2]
  by_cases hc2 : (l1ConnStep e (emit (Event.l1InhibitAttempt what) s)).2 = false
  · rw [if_pos hc2, if_pos hc2]
    exact ⟨hcs, rfl⟩
  · rw [if_neg hc2, if_neg hc2]
    by_cases hm : e.msgOk = false
    · rw [if_pos hm, if_pos hm]
      exact ⟨DebugIndep_setStatusMessage _ _ hcs, rfl⟩
    · rw [if_neg hm, if_neg hm]
      cases e.call
      · exact ⟨DebugIndep_setStatusMessage _ _ hcs, rfl⟩
      · exact ⟨DebugIndep_setStatusMessage _ _ hcs, rfl⟩
      · cases e.iter
        · exact ⟨DebugIndep_setStatusMessage _ _ hcs, rfl⟩
        · exact ⟨DebugIndep_setStatusMessage _ _ hcs, rfl⟩
        · exact ⟨DebugIndep_logDebug _
            (DebugIndep_setHandles hcs (fun hh => hh.setFd field (Int.ofNat _))), rfl⟩

/-- The screen-saver release preserves debug-independence. -/
lemma DebugIndep_releaseSS (e : RelSSEnv) {s t : ProgState} (h : DebugIndep s t) :
    DebugIndep (releaseScreenSaverInhibitor e s) (releaseScreenSaverInhibitor e t) := by
  have h1 := h.1
  have hguard : (t.handles.screenSaverCookie = 0 ∨ t.handles.sessionConnection = false) ↔
      (s.handles.screenSaverCookie = 0 ∨ s.handles.sessionConnection = false) := by
    rw [h1]
  simp only [releaseScreenSaverInhibitor]
  by_cases hcase : s.handles.screenSaverCookie = 0 ∨ s.handles.sessionConnection = false
  · rw [if_pos hcase, if_pos (hguard.mpr hcase)]
    exact h
  · rw [if_neg hcase, if_neg (fun hx => hcase (hguard.mp hx))]
    by_cases hm : e.msgOk = false
    · rw [if_pos hm, if_pos hm]
      exact DebugIndep_logDebug _ h
    · rw [if_neg hm, if_neg hm]
      rw [show t.handles.screenSaverCookie = s.handles.screenSaverCookie from by rw [h1]]
      have hemit := DebugIndep_emit (Event.ssUnInhibitCall s.handles.screenSaverCookie) h
      cases e.call
      · exact DebugIndep_logDebug _
          (DebugIndep_setHandles (DebugIndep_logDebug _ hemit)
            (fun hh => { hh with screenSaverCookie := 0 }))
      · exact DebugIndep_logDebug _
          (DebugIndep_setHandles hemit (fun hh => { hh with screenSaverCookie := 0 }))
      · exact DebugIndep_logDebug _
          (DebugIndep_setHandles hemit (fun hh => { hh with screenSaverCookie := 0 }))

/-- The login1 descriptor release preserves debug-independence. -/
lemma DebugIndep_releaseFd (field : FdField) (w : String) {s t : ProgState}
    (h : DebugIndep s t) :
    DebugIndep (releaseLogin1Fd field w s) (releaseLogin1Fd field w t) := by
  have h1 := h.1
  simp only [releaseLogin1Fd]
  rw [show t.handles.getFd field = s.handles.getFd field from by rw [h1]]
  by_cases hc : 0 ≤ s.handles.getFd field
  · rw [if_pos hc, if_pos hc]
    exact DebugIndep_setHandles
      (DebugIndep_logDebug _ (DebugIndep_emit (Event.fdClose (s.handles.getFd field)) h))
      (fun hh => hh.setFd field (-1))
  · rw [if_neg hc, if_neg hc]
    exact h

/-- Dropping the session connection (when present) preserves
debug-independence. -/
lemma DebugIndep_dropSession {s t : ProgState} (h : DebugIndep s t) :
    DebugIndep
      (if s.handles.sessionConnection then
        { s with handles := { s.handles with sessionConnection := false } } else s)
      (if t.handles.sessionConnection then
        { t with handles := { t.handles with sessionConnection := false } } else t) := by
  rw [show t.handles.sessionConnection = s.handles.sessionConnection from by rw [h.1]]
  by_cases hc : s.handles.sessionConnection = true
  · rw [if_pos hc, if_pos hc]
    exact DebugIndep_setHandles h (fun hh => { hh with sessionConnection := false })
  · rw [if_neg hc, if_neg hc]
    exact h

/-- Dropping the system connection (when present) preserves
debug-independence. -/
lemma DebugIndep_dropSystem {s t : ProgState} (h : DebugIndep s t) :
    DebugIndep
      (if s.handles.systemConnection then
        { s with handles := { s.handles with systemConnection := false } } else s)
      (if t.handles.systemConnection then
        { t with handles := { t.handles with systemConnection := false } } else t) := by
  rw [show t.handles.systemConnection = s.handles.systemConnection from by rw [h.1]]
  by_cases hc : s.handles.systemConnection = true
  · rw [if_pos hc, if_pos hc]
    exact DebugIndep_setHandles h (fun hh => { hh with systemConnection := false })
  · rw [if_neg hc, if_neg hc]
    exact h

/-- cleanupInhibitors preserves debug-independence. -/
lemma DebugIndep_cleanup (e : CleanupEnv) {s t : ProgState} (h : DebugIndep s t) :
    DebugIndep (cleanupInhibitors e s) (cleanupInhibitors e t) := by
  simp only [cleanupInhibitors]
  exact DebugIndep_update e.writeOk (DebugIndep_emit Event.cleanupDone
    (DebugIndep_dropSystem (DebugIndep_dropSession (DebugIndep_setActive false
      (DebugIndep_releaseFd FdField.sleep "sleep"
        (DebugIndep_releaseFd FdField.idle "idle"
          (DebugIndep_releaseSS e.relSS h)))))))

/-- acquireInhibitors preserves debug-independence and returns the same
result on both sides. -/
lemma DebugIndep_acquireInhibitors (e : AcqEnv) {s t : ProgState} (h : DebugIndep s t) :
    DebugIndep (acquireInhibitors e s).1 (acquireInhibitors e t).1 ∧
    (acquireInhibitors e s).2 = (acquireInhibitors e t).2 := by
  obtain ⟨hssI, hss2⟩ := DebugIndep_acquireSS e.ss h
  obtain ⟨hidleI, hidle2⟩ := DebugIndep_acquireL1 "idle" FdField.idle e.idle hssI
  obtain ⟨hsleepI, hsleep2⟩ := DebugIndep_acquireL1 "sleep" FdField.sleep e.sleep hidleI
  simp only [acquireInhibitors]
  rw [← hss2, ← hidle2, ← hsleep2]
  have hmid := DebugIndep_emit
    (Event.acquisitionDone (acquireScreenSaverInhibitor e.ss s).2
      (acquireLogin1Inhibitor "idle" FdField.idle e.idle (acquireScreenSaverInhibitor e.ss s).1).2
      (acquireLogin1Inhibitor "sleep" FdField.sleep e.sleep
        (acquireLogin1Inhibitor "idle" FdField.idle e.idle
          (acquireScreenSaverInhibitor e.ss s).1).1).2)
    (DebugIndep_setActive ((acquireScreenSaverInhibitor e.ss s).2 &&
      (acquireLogin1Inhibitor "idle" FdField.idle e.idle (acquireScreenSaverInhibitor e.ss s).1).2 &&
      (acquireLogin1Inhibitor "sleep" FdField.sleep e.sleep
        (acquireLogin1Inhibitor "idle" FdField.idle e.idle
          (acquireScreenSaverInhibitor e.ss s).1).1).2) hsleepI)
  by_cases hb : ((acquireScreenSaverInhibitor e.ss s).2 &&
      (acquireLogin1Inhibitor "idle" FdField.idle e.idle (acquireScreenSaverInhibitor e.ss s).1).2 &&
      (acquireLogin1Inhibitor "sleep" FdField.sleep e.sleep
        (acquireLogin1Inhibitor "idle" FdField.idle e.idle
          (acquireScreenSaverInhibitor e.ss s).1).1).2) = true
  · rw [if_pos hb, if_pos hb]
    exact ⟨DebugIndep_setStatusMessage _ _ hmid, rfl⟩
  · rw [if_neg hb, if_neg hb]
    exact ⟨DebugIndep_update _ hmid, rfl⟩

/-- The acquire block preserves debug-independence. -/
lemma DebugIndep_acquirePhase (e : IterEnv) {s t : ProgState} (h : DebugIndep s t) :
    DebugIndep (acquirePhase e s) (acquirePhase e t) := by
  obtain ⟨hAI, hA2⟩ := DebugIndep_acquireInhibitors e.acqEnv h
  simp only [acquirePhase]
  rw [show t.inhibitorsActive = s.inhibitorsActive from (h.2.1).symm, ← hA2]
  by_cases hacq : e.acq = true
  · rw [if_pos hacq, if_pos hacq]
    by_cases hact : s.inhibitorsActive = false
    · rw [if_pos hact, if_pos hact]
      by_cases hr2 : (acquireInhibitors e.acqEnv s).2 = false
      · rw [if_pos hr2, if_pos hr2]
        exact DebugIndep_logDebug _ hAI
      · rw [if_neg hr2, if_neg hr2]
        exact hAI
    · rw [if_neg hact, if_neg hact]
      exact DebugIndep_update _ (DebugIndep_logDebug _ h)
  · rw [if_neg hacq, if_neg hacq]
    exact h

/-- The release block preserves debug-independence. -/
lemma DebugIndep_releasePhase (e : IterEnv) {s t : ProgState} (h : DebugIndep s t) :
    DebugIndep (releasePhase e s) (releasePhase e t) := by
  simp only [releasePhase]
  rw [show t.inhibitorsActive = s.inhibitorsActive from (h.2.1).symm]
  by_cases hrel : e.rel = true
  · rw [if_pos hrel, if_pos hrel]
    by_cases hact : s.inhibitorsActive = true
    · rw [if_pos hact, if_pos hact]
      exact DebugIndep_setStatusMessage _ _ (DebugIndep_cleanup e.cleanup h)
    · rw [if_neg hact, if_neg hact]
      exact DebugIndep_setStatusMessage _ _ h
  · rw [if_neg hrel, if_neg hrel]
    exact h

/-- One loop iteration preserves debug-independence. -/
lemma DebugIndep_loopIter (e : IterEnv) {s t : ProgState} (h : DebugIndep s t) :
    DebugIndep (loopIter e s) (loopIter e t) :=
  DebugIndep_releasePhase e (DebugIndep_acquirePhase e h)

/-- The initial acquisition preserves debug-independence. -/
lemma DebugIndep_afterInitialAcquire (a : AcqEnv) {s t : ProgState} (h : DebugIndep s t) :
    DebugIndep (afterInitialAcquire a s) (afterInitialAcquire a t) := by
  obtain ⟨hAI, hA2⟩ := DebugIndep_acquireInhibitors a h
  simp only [afterInitialAcquire]
  rw [← hA2]
  by_cases hr2 : (acquireInhibitors a s).2 = false
  · rw [if_pos hr2, if_pos hr2]
    exact DebugIndep_logDebug _ hAI
  · rw [if_neg hr2, if_neg hr2]
    exact hAI

/-- A list of loop iterations preserves debug-independence. -/
lemma DebugIndep_foldIters (iters : List IterEnv) {s t : ProgState} (h : DebugIndep s t) :
    DebugIndep (iters.foldl (fun st e => loopIter e st) s)
      (iters.foldl (fun st e => loopIter e st) t) := by
  induction iters generalizing s t with
  | nil => exact h
  | cons e rest ih => exact ih (DebugIndep_loopIter e h)

/-- The termination path preserves debug-independence. -/
lemma DebugIndep_terminationStep (e : TermEnv) {s t : ProgState} (h : DebugIndep s t) :
    DebugIndep (terminationStep e s) (terminationStep e t) := by
  simp only [terminationStep]
  have hlog := DebugIndep_logDebug "Termination requested, cleaning up inhibitors." h
  rw [show (logDebug "Termination requested, cleaning up inhibitors." t).inhibitorsActive =
      (logDebug "Termination requested, cleaning up inhibitors." s).inhibitorsActive from by
    simp [h.2.1]]
  by_cases hact :
      (logDebug "Termination requested, cleaning up inhibitors." s).inhibitorsActive = true
  · rw [if_pos hact, if_pos hact]
    exact DebugIndep_setStatusMessage _ _ (DebugIndep_cleanup e.cleanup hlog)
  · rw [if_neg hact, if_neg hact]
    exact DebugIndep_cleanup e.cleanup hlog

/-- The two process-start states with and without the debug flag are
debug-independent. -/
lemma DebugIndep_processStart (pid : Nat) :
    DebugIndep (processStart pid true) (processStart pid false) := by
  refine ⟨?_, ?_, ?_, ?_, ?_, ?_⟩ <;>
    simp [processStart, setDebugMode, initState, statusRel]

end DebugNoninterference
/-- C9: the debug flag never influences control flow.  Two runs of the
inhibitor loop that are identical except for the value of debugEnabled
remain debug-independent at every point: same handle block (hence the same
lease acquisitions and releases, as also witnessed by the identical ghost
event histories), same active flag, same published status message and same
status-file pid/active/message fields - only the diagnostic log and the
debug field of the status file may differ. -/
theorem C9_debug_flag_noninterference (pid : Nat) (a : AcqEnv) (iters : List IterEnv)
    (term : TermEnv) :
    DebugIndep (runUpTo a iters (processStart pid true))
      (runUpTo a iters (processStart pid false)) ∧
    DebugIndep (runInhibitorLoop a iters term (processStart pid true))
      (runInhibitorLoop a iters term (processStart pid false)) := by
  have h1 : DebugIndep (runUpTo a iters (processStart pid true))
      (runUpTo a iters (processStart pid false)) := by
    unfold runUpTo
    exact DebugIndep_foldIters iters
      (DebugIndep_afterInitialAcquire a (DebugIndep_processStart pid))
  exact ⟨h1, DebugIndep_terminationStep term h1⟩

end Claims
end Caffeine8
